import Mathlib

/-!
Verification of project.cpp: crop, gate and accumulation of two laser point clouds

A shallow embedding of `project::Node` (src/src/project.cpp).

Modelling conventions
* A coordinate of a point is a value of the C++ type `float` and the crop tests
  are computed in `double`: a value is NaN, an infinity or a finite number
  (`Fp`). The conversion from `float` to `double` is exact. `-`, `+`,
  `pow(., 2)` and `sqrt` are the IEEE 754 binary64 operations, each rounded once
  to nearest, ties to even (`round_double`, `sqrt_double`); the arguments of
  `pow(a, 2)` are promoted to `double` and its value is the rounded product
  `a * a`. Comparisons are exact and false on NaN. The sign of zero is not
  modelled (no test of the program depends on it).
* The bounds `max_z`, `max_radius`, the origin of a transform and the motor
  angle are finite numbers (`ℚ`).
* What the external collaborators answer during one scan callback
  (`waitForTransform`, the projected cloud, `lookupTransform`) is part of the
  callback input `Scan`.
* A callback ends in an `Outcome`: the members of the node when control leaves
  the callback, the cloud it published (if any), whether "Ready to Scan." was
  logged and whether control left through a `tf` exception.
-/

namespace project

/-- A floating-point value: NaN, plus or minus infinity, or a finite number. -/
inductive Fp where
  | nan
  | pos_inf
  | neg_inf
  | fin (q : ℚ)
deriving DecidableEq

/-- Rounding of a number to an integer, to nearest, ties to even. -/
def round_half_even (q : ℚ) : ℤ :=
  if q - ⌊q⌋ < 1 / 2 then ⌊q⌋
  else if 1 / 2 < q - ⌊q⌋ then ⌊q⌋ + 1
  else if ⌊q⌋ % 2 = 0 then ⌊q⌋ else ⌊q⌋ + 1

/-- The exponent of the unit in the last place of binary64 at `q`: 52 below the
binary exponent of `q`, which is at least -1022 (subnormal range). -/
def ulp_exponent (q : ℚ) : ℤ :=
  max (Int.log 2 |q|) (-1022) - 52

/-- Rounding of the exact result `q` of an operation to binary64: to the nearest
multiple of the unit in the last place, ties to even; a rounded magnitude of
`2 ^ 1024` or more overflows to the infinity of the sign of `q`. -/
def round_double (q : ℚ) : Fp :=
  let r : ℚ := round_half_even (q / 2 ^ ulp_exponent q) * 2 ^ ulp_exponent q
  if 2 ^ 1024 ≤ |r| then (if q < 0 then Fp.neg_inf else Fp.pos_inf) else Fp.fin r

/-- The binary64 square root of a positive `v`: the real square root rounded to
nearest, ties to even. With `u` the unit in the last place of the result and
`t = v / u ^ 2`, the integer part of `sqrt t` is `Nat.sqrt ⌊t⌋₊` and the
rounding direction is decided by comparing `t` with the square of the
midpoint. -/
def sqrt_double (v : ℚ) : ℚ :=
  let u : ℚ := 2 ^ (Int.log 2 v / 2 - 52)
  let t : ℚ := v / (u * u)
  let m : ℕ := Nat.sqrt ⌊t⌋₊
  let h : ℚ := (m + 1 / 2) ^ 2
  if t < h then m * u
  else if h < t then (m + 1) * u
  else if m % 2 = 0 then m * u else (m + 1) * u

/-- The comparison `a < b`: false when either operand is NaN. -/
def fp_lt : Fp → Fp → Bool
  | .nan, _ => false
  | _, .nan => false
  | .fin a, .fin b => decide (a < b)
  | .fin _, .pos_inf => true
  | .fin _, .neg_inf => false
  | .neg_inf, .neg_inf => false
  | .neg_inf, _ => true
  | .pos_inf, _ => false

/-- The comparison `a > b`. -/
def fp_gt (a b : Fp) : Bool :=
  fp_lt b a

/-- The sum `a + b` in double. -/
def fp_add : Fp → Fp → Fp
  | .nan, _ => .nan
  | _, .nan => .nan
  | .pos_inf, .neg_inf => .nan
  | .neg_inf, .pos_inf => .nan
  | .pos_inf, _ => .pos_inf
  | _, .pos_inf => .pos_inf
  | .neg_inf, _ => .neg_inf
  | _, .neg_inf => .neg_inf
  | .fin a, .fin b => round_double (a + b)

/-- The difference `a - b` in double. -/
def fp_sub : Fp → Fp → Fp
  | .nan, _ => .nan
  | _, .nan => .nan
  | .pos_inf, .pos_inf => .nan
  | .neg_inf, .neg_inf => .nan
  | .pos_inf, _ => .pos_inf
  | .neg_inf, _ => .neg_inf
  | .fin _, .pos_inf => .neg_inf
  | .fin _, .neg_inf => .pos_inf
  | .fin a, .fin b => round_double (a - b)

/-- The call `pow(a, 2)` in double. -/
def fp_pow2 : Fp → Fp
  | .nan => .nan
  | .pos_inf => .pos_inf
  | .neg_inf => .pos_inf
  | .fin a => round_double (a * a)

/-- The call `sqrt(a)` in double. -/
def fp_sqrt : Fp → Fp
  | .nan => .nan
  | .pos_inf => .pos_inf
  | .neg_inf => .nan
  | .fin v => if v < 0 then .nan else if v = 0 then .fin 0 else .fin (sqrt_double v)

/-- The point type `pcl::PointXYZ`, three `float` members. -/
structure PointXYZ where
  x : Fp
  y : Fp
  z : Fp
deriving DecidableEq

/-- The origin of a `tf::StampedTransform` as read by `crop_cloud`
(`getOrigin().x()`, `getOrigin().y()`). -/
structure StampedTransform where
  origin_x : ℚ
  origin_y : ℚ
deriving DecidableEq

/-- The data members of `class Node` that the callbacks read or write. -/
structure Node where
  cloud1 : List PointXYZ
  cloud2 : List PointXYZ
  max_z : ℚ
  max_radius : ℚ
  starting_config : Bool
  angle : ℚ
deriving DecidableEq

/-- The constructor `Node::Node`: the two bounds come from the parameter server,
both clouds are default constructed (empty), `starting_config = false`; `angle`
is left uninitialised by the constructor, so its first value is a parameter. -/
def Node.init (max_z max_radius angle : ℚ) : Node :=
  { cloud1 := [], cloud2 := [], max_z := max_z, max_radius := max_radius,
    starting_config := false, angle := angle }

/-- The value of `remove_point` at the end of one loop body of `crop_cloud`
(lines 140-158), for the point `p` under the iterator and the transform `t`
returned by `lookupTransform`. -/
def remove_point (n : Node) (laser : Int) (t : StampedTransform) (p : PointXYZ) : Bool :=
  let r0 := false
  let r1 := if fp_lt p.z (.fin 0) || fp_gt p.z (.fin n.max_z) then true else r0
  let r2 :=
    if fp_gt (fp_sqrt (fp_add (fp_pow2 p.x) (fp_pow2 p.y))) (.fin n.max_radius)
    then true else r1
  let r3 :=
    if fp_gt
        (fp_sqrt (fp_add (fp_pow2 (fp_sub (.fin t.origin_x) p.x))
          (fp_pow2 (fp_sub (.fin t.origin_y) p.y))))
        (.fin (1 / 4)) && decide (laser = 1)
    then true else r2
  r3

/-- The loop of `crop_cloud` (lines 137-169). The iterator is the index `i`
into the vector `pcl_cloud`; `i != pcl_cloud.end()` is `i < pcl_cloud.length`.
Every iteration calls `lookupTransform`; `lookup = none` is the call throwing,
which ends the function with no result. `erase(i)` removes the element at `i`
and returns the iterator to the element that followed it, which is index `i`
of the shortened vector. -/
def crop_loop (n : Node) (laser : Int) (lookup : Option StampedTransform)
    (pcl_cloud : List PointXYZ) (i : Nat) : Option (List PointXYZ) :=
  if h : i < pcl_cloud.length then
    match lookup with
    | none => none
    | some t =>
      if remove_point n laser t (pcl_cloud.get ⟨i, h⟩) then
        crop_loop n laser lookup (pcl_cloud.eraseIdx i) i
      else
        crop_loop n laser lookup pcl_cloud (i + 1)
  else
    some pcl_cloud
termination_by pcl_cloud.length - i
decreasing_by
  · simp only [List.length_eraseIdx, h, if_true]
    omega
  · omega

/-- The method `Node::crop_cloud`: the loop started at `pcl_cloud.begin()`.
The result is the content of `pcl_cloud` on return, `none` when
`lookupTransform` threw. -/
def crop_cloud (n : Node) (pcl_cloud : List PointXYZ) (laser : Int)
    (lookup : Option StampedTransform) : Option (List PointXYZ) :=
  crop_loop n laser lookup pcl_cloud 0

/-- What one scan callback receives: the answer of `waitForTransform`, the
cloud obtained from `transformLaserScanToPointCloud` and `fromROSMsg`, and the
answer of `lookupTransform("/world", "/laser1", stamp)` (`none`: it throws). -/
structure Scan where
  wait_ok : Bool
  projected : List PointXYZ
  lookup : Option StampedTransform
deriving DecidableEq

/-- How a callback ends. -/
structure Outcome where
  node : Node
  published : Option (List PointXYZ)
  ready_logged : Bool
  thrown : Bool
deriving DecidableEq

/-- The callback `Node::motor_cb`. -/
def motor_cb (n : Node) (current_pos : ℚ) : Outcome :=
  { node := { n with angle := current_pos }, published := none,
    ready_logged := false, thrown := false }

/-- The callback `Node::laser_1_cb`. -/
def laser_1_cb (n : Node) (scan_in : Scan) : Outcome :=
  if !scan_in.wait_ok then
    { node := n, published := none, ready_logged := false, thrown := false }
  else
    match crop_cloud n scan_in.projected 1 scan_in.lookup with
    | none => { node := n, published := none, ready_logged := false, thrown := true }
    | some pcl_cloud =>
      let ready := !n.starting_config && decide (|n.angle| < 1 / 10)
      let n1 := if ready then { n with starting_config := true } else n
      let n2 := if n1.starting_config then { n1 with cloud1 := n1.cloud1 ++ pcl_cloud } else n1
      { node := n2, published := some n2.cloud1, ready_logged := ready, thrown := false }

/-- The callback `Node::laser_2_cb`. -/
def laser_2_cb (n : Node) (scan_in : Scan) : Outcome :=
  if !scan_in.wait_ok then
    { node := n, published := none, ready_logged := false, thrown := false }
  else
    match crop_cloud n scan_in.projected 2 scan_in.lookup with
    | none => { node := n, published := none, ready_logged := false, thrown := true }
    | some pcl_cloud =>
      let ready := !n.starting_config && decide (|n.angle| < 1 / 10)
      let n1 := if ready then { n with starting_config := true } else n
      let n2 := if n1.starting_config then { n1 with cloud2 := n1.cloud2 ++ pcl_cloud } else n1
      { node := n2, published := some n2.cloud2, ready_logged := ready, thrown := false }

/-- The messages `ros::spin` dispatches to the node. -/
inductive Event where
  | motor (current_pos : ℚ)
  | laser_1 (scan_in : Scan)
  | laser_2 (scan_in : Scan)
deriving DecidableEq

/-- One dispatched message. -/
def step (n : Node) : Event → Outcome
  | .motor a => motor_cb n a
  | .laser_1 s => laser_1_cb n s
  | .laser_2 s => laser_2_cb n s

/-- The outcomes of the callbacks `ros::spin` runs for a sequence of messages.
No callback catches the `tf` exception, so the first callback that throws is
the last one that runs. -/
def run (n : Node) : List Event → List Outcome
  | [] => []
  | e :: es =>
    let o := step n e
    o :: (if o.thrown then [] else run o.node es)

/-- The members of the node after the messages have been dispatched. -/
def exec (n : Node) : List Event → Node
  | [] => n
  | e :: es =>
    let o := step n e
    if o.thrown then o.node else exec o.node es

/-- The bounds the spec states for an accepted point, in its words, with the
coordinates taken as exact reals and the real square root: the coordinates are
numbers `x`, `y`, `z` with `0 <= z <= max_z` and
`sqrt(x^2 + y^2) <= max_radius`. -/
def spec_within_bounds (max_z max_radius : ℚ) (p : PointXYZ) : Prop :=
  ∃ x y z : ℚ, p = ⟨.fin x, .fin y, .fin z⟩ ∧ (0 ≤ z ∧ z ≤ max_z) ∧
    Real.sqrt ((x : ℝ) ^ 2 + (y : ℝ) ^ 2) ≤ (max_radius : ℝ)

/-- The acceptance rule of the spec for device 1, in its words, with the
coordinates taken as exact reals and the real square root: the bounds on
height and radius, and `sqrt((transform.x - point.x)^2 + (transform.y -
point.y)^2) <= 0.25`. -/
def spec_accept_device_1 (max_z max_radius : ℚ) (t : StampedTransform)
    (p : PointXYZ) : Prop :=
  ∃ x y z : ℚ, p = ⟨.fin x, .fin y, .fin z⟩ ∧ (0 ≤ z ∧ z ≤ max_z) ∧
    Real.sqrt ((x : ℝ) ^ 2 + (y : ℝ) ^ 2) ≤ (max_radius : ℝ) ∧
    Real.sqrt (((t.origin_x : ℝ) - (x : ℝ)) ^ 2 + ((t.origin_y : ℝ) - (y : ℝ)) ^ 2)
      ≤ (1 / 4 : ℝ)

/-- The radius of `p` as line 147 computes it: `sqrt(pow(x,2) + pow(y,2))` in
double. -/
def computed_radius (p : PointXYZ) : Fp :=
  fp_sqrt (fp_add (fp_pow2 p.x) (fp_pow2 p.y))

/-- The distance of `p` to the origin of `t` as line 155 computes it, in
double. -/
def computed_distance (t : StampedTransform) (p : PointXYZ) : Fp :=
  fp_sqrt (fp_add (fp_pow2 (fp_sub (.fin t.origin_x) p.x))
    (fp_pow2 (fp_sub (.fin t.origin_y) p.y)))

/-- The height and radius rule as the program evaluates it: neither `z < 0` nor
`z > max_z` holds, and the computed radius is not greater than `max_radius`. -/
def passes_height_radius (max_z max_radius : ℚ) (p : PointXYZ) : Bool :=
  !(fp_lt p.z (.fin 0) || fp_gt p.z (.fin max_z)) &&
    !fp_gt (computed_radius p) (.fin max_radius)

/-- The proximity rule as the program evaluates it: the computed distance to
the origin of the transform is not greater than 0.25. -/
def passes_proximity (t : StampedTransform) (p : PointXYZ) : Bool :=
  !fp_gt (computed_distance t p) (.fin (1 / 4))

/-- The `float` nearest to 0.05. -/
def float_0_05 : ℚ := 13421773 / 268435456

/-- The `float` nearest to 0.02. -/
def float_0_02 : ℚ := 5368709 / 268435456

/-- The `float` nearest to 0.1. -/
def float_0_1 : ℚ := 13421773 / 134217728

/-- The `float` nearest to 0.3. -/
def float_0_3 : ℚ := 5033165 / 16777216

/-- The `double` nearest to 0.127, the default of `max_radius`. -/
def double_0_127 : ℚ := 571957152676053 / 4503599627370496

/-- The point (0.05, 0.02, 0.1) of the scenarios of the spec, in `float`. -/
def scenario_point : PointXYZ :=
  ⟨.fin float_0_05, .fin float_0_02, .fin float_0_1⟩

/-- The point (0.05, 0.02, 0.3), in `float`. -/
def high_point : PointXYZ :=
  ⟨.fin float_0_05, .fin float_0_02, .fin float_0_3⟩

/-- A point at height 0 whose exact radius, the square root of
`1/4 + 2^-80`, is above 0.5; its coordinates are `float` values. -/
def rounding_point : PointXYZ :=
  ⟨.fin (1 / 2), .fin (1 / 2 ^ 40), .fin 0⟩

/-- The point at the origin of the world frame. -/
def origin_point : PointXYZ :=
  ⟨.fin 0, .fin 0, .fin 0⟩

/-- The members of the node satisfy the bounds `mz`, `mr`: they are its
configured bounds and every accumulated point passes the height and radius
rule as the program evaluates it. -/
def clouds_within (mz mr : ℚ) (n : Node) : Prop :=
  n.max_z = mz ∧ n.max_radius = mr ∧
    (∀ p ∈ n.cloud1, passes_height_radius mz mr p = true) ∧
    (∀ p ∈ n.cloud2, passes_height_radius mz mr p = true)

/-- The number of callbacks of a run in which `starting_config` goes from
`false` to `true`. -/
def openings (n : Node) : List Event → Nat
  | [] => 0
  | e :: es =>
    let o := step n e
    (if !n.starting_config && o.node.starting_config then 1 else 0) +
      (if o.thrown then 0 else openings o.node es)

/-- The number of callbacks of a run that log "Ready to Scan.". -/
def ready_signals (n : Node) (es : List Event) : Nat :=
  ((run n es).filter (fun o => o.ready_logged)).length

/-- The number of `lookupTransform` calls (line 153) the loop of `crop_cloud`
makes from iterator position `i` on: one in every iteration, the call that
throws included. -/
def crop_lookups (n : Node) (laser : Int) (lookup : Option StampedTransform)
    (pcl_cloud : List PointXYZ) (i : Nat) : Nat :=
  if h : i < pcl_cloud.length then
    match lookup with
    | none => 1
    | some t =>
      if remove_point n laser t (pcl_cloud.get ⟨i, h⟩) then
        1 + crop_lookups n laser lookup (pcl_cloud.eraseIdx i) i
      else
        1 + crop_lookups n laser lookup pcl_cloud (i + 1)
  else
    0
termination_by pcl_cloud.length - i
decreasing_by
  · simp only [List.length_eraseIdx, h, if_true]
    omega
  · omega

/-! ## Auxiliary facts -/

theorem int_log_two_eq (q : ℚ) (e : ℤ) (h1 : (2 : ℚ) ^ e ≤ q) (h2 : q < (2 : ℚ) ^ (e + 1)) :
    Int.log 2 q = e := by
  have hpos : 0 < q := lt_of_lt_of_le (zpow_pos (by norm_num) e) h1
  have hb : 1 < (2 : ℕ) := by norm_num
  have ha : e ≤ Int.log 2 q := by
    rw [← Int.zpow_le_iff_le_log hb hpos]
    exact_mod_cast h1
  have hc : Int.log 2 q < e + 1 := by
    rw [← Int.lt_zpow_iff_log_lt hb hpos]
    exact_mod_cast h2
  omega

theorem round_half_even_eq (x : ℚ) (m : ℤ) (h1 : (m : ℚ) - 1 / 2 < x)
    (h2 : x < (m : ℚ) + 1 / 2) : round_half_even x = m := by
  unfold round_half_even
  have hf1 : (⌊x⌋ : ℚ) ≤ x := Int.floor_le x
  have hf2 : x < (⌊x⌋ : ℚ) + 1 := Int.lt_floor_add_one x
  have hlo : m - 1 ≤ ⌊x⌋ := by
    have : ((m - 1 : ℤ) : ℚ) < (⌊x⌋ : ℚ) + 1 := by
      push_cast
      linarith
    have : (m - 1 : ℤ) < ⌊x⌋ + 1 := by exact_mod_cast this
    omega
  have hhi : ⌊x⌋ ≤ m := by
    have : (⌊x⌋ : ℚ) < ((m + 1 : ℤ) : ℚ) := by
      push_cast
      linarith
    have : ⌊x⌋ < m + 1 := by exact_mod_cast this
    omega
  have hcases : ⌊x⌋ = m ∨ ⌊x⌋ = m - 1 := by omega
  rcases hcases with h | h
  · have hlt : x - (⌊x⌋ : ℚ) < 1 / 2 := by
      rw [h]
      linarith
    rw [if_pos hlt, h]
  · have hm : (⌊x⌋ : ℚ) = (m : ℚ) - 1 := by
      rw [h]
      push_cast
      ring
    have hgt : 1 / 2 < x - (⌊x⌋ : ℚ) := by
      rw [hm]
      linarith
    rw [if_neg (not_lt.mpr hgt.le), if_pos hgt, h]
    ring

theorem round_double_eq (q : ℚ) (e m : ℤ) (h1 : (2 : ℚ) ^ e ≤ |q|)
    (h2 : |q| < (2 : ℚ) ^ (e + 1)) (he : -1022 ≤ e)
    (hm1 : (m : ℚ) - 1 / 2 < q / 2 ^ (e - 52)) (hm2 : q / 2 ^ (e - 52) < (m : ℚ) + 1 / 2)
    (hfin : |(m : ℚ) * 2 ^ (e - 52)| < 2 ^ 1024) :
    round_double q = Fp.fin ((m : ℚ) * 2 ^ (e - 52)) := by
  have hu : ulp_exponent q = e - 52 := by
    unfold ulp_exponent
    rw [int_log_two_eq |q| e h1 h2, max_eq_left he]
  unfold round_double
  simp only [hu]
  rw [round_half_even_eq _ m hm1 hm2, if_neg (not_le.mpr hfin)]

theorem round_double_zero : round_double 0 = Fp.fin 0 := by
  unfold round_double round_half_even
  norm_num

theorem sqrt_double_eq (v : ℚ) (e : ℤ) (m : ℕ) (h1 : (2 : ℚ) ^ (2 * e) ≤ v)
    (h2 : v < (2 : ℚ) ^ (2 * e + 2)) (hm : 1 ≤ m)
    (hlo : ((m : ℚ) - 1 / 2) ^ 2 < v / (2 ^ (e - 52) * 2 ^ (e - 52)))
    (hhi : v / (2 ^ (e - 52) * 2 ^ (e - 52)) < ((m : ℚ) + 1 / 2) ^ 2) :
    sqrt_double v = (m : ℚ) * 2 ^ (e - 52) := by
  have hpos : 0 < v := lt_of_lt_of_le (zpow_pos (by norm_num) _) h1
  have hb : 1 < (2 : ℕ) := by norm_num
  have ha : 2 * e ≤ Int.log 2 v := by
    rw [← Int.zpow_le_iff_le_log hb hpos]
    exact_mod_cast h1
  have hc : Int.log 2 v < 2 * e + 2 := by
    rw [← Int.lt_zpow_iff_log_lt hb hpos]
    exact_mod_cast h2
  have hlog : Int.log 2 v / 2 = e := by omega
  unfold sqrt_double
  simp only [hlog]
  generalize v / (2 ^ (e - 52) * 2 ^ (e - 52)) = t at hlo hhi
  have hm1 : (1 : ℚ) ≤ (m : ℚ) := by exact_mod_cast hm
  have ht0 : 0 ≤ t := le_trans (sq_nonneg _) hlo.le
  have hfl1 : ((⌊t⌋₊ : ℕ) : ℚ) ≤ t := Nat.floor_le ht0
  have hfl2 : t < ((⌊t⌋₊ : ℕ) : ℚ) + 1 := Nat.lt_floor_add_one t
  rcases le_or_lt ((m : ℚ) ^ 2) t with hge | hlt
  · have hs : m = Nat.sqrt ⌊t⌋₊ := by
      rw [Nat.eq_sqrt']
      constructor
      · apply Nat.le_floor
        push_cast
        exact hge
      · have : ((⌊t⌋₊ : ℕ) : ℚ) < (((m + 1) ^ 2 : ℕ) : ℚ) := by
          push_cast
          nlinarith
        exact_mod_cast this
    rw [← hs, if_pos hhi]
  · obtain ⟨k, rfl⟩ : ∃ k, m = k + 1 := ⟨m - 1, by omega⟩
    have hk : ((k + 1 : ℕ) : ℚ) = (k : ℚ) + 1 := by push_cast; ring
    rw [hk] at hlo hhi hlt
    have hs : k = Nat.sqrt ⌊t⌋₊ := by
      rw [Nat.eq_sqrt']
      constructor
      · apply Nat.le_floor
        push_cast
        nlinarith
      · have : ((⌊t⌋₊ : ℕ) : ℚ) < (((k + 1) ^ 2 : ℕ) : ℚ) := by
          push_cast
          linarith
        exact_mod_cast this
    have hlo2 : ((k : ℚ) + 1 / 2) ^ 2 < t := by
      have : (k : ℚ) + 1 - 1 / 2 = (k : ℚ) + 1 / 2 := by ring
      rw [this] at hlo
      exact hlo
    rw [← hs, if_neg (not_lt.mpr hlo2.le), if_pos hlo2, hk]

theorem remove_point_eq (n : Node) (laser : Int) (t : StampedTransform) (p : PointXYZ) :
    remove_point n laser t p =
      ((fp_lt p.z (.fin 0) || fp_gt p.z (.fin n.max_z)) ||
        (fp_gt (computed_radius p) (.fin n.max_radius) ||
          (fp_gt (computed_distance t p) (.fin (1 / 4)) && decide (laser = 1)))) := by
  unfold remove_point computed_radius computed_distance
  cases fp_lt p.z (.fin 0) || fp_gt p.z (.fin n.max_z) <;>
  cases fp_gt (fp_sqrt (fp_add (fp_pow2 p.x) (fp_pow2 p.y))) (.fin n.max_radius) <;>
  cases fp_gt
    (fp_sqrt (fp_add (fp_pow2 (fp_sub (.fin t.origin_x) p.x))
      (fp_pow2 (fp_sub (.fin t.origin_y) p.y)))) (.fin (1 / 4)) <;>
  cases decide (laser = 1) <;> rfl

theorem remove_point_eq_false_iff (n : Node) (laser : Int) (t : StampedTransform)
    (p : PointXYZ) :
    remove_point n laser t p = false ↔
      passes_height_radius n.max_z n.max_radius p = true ∧
        (laser = 1 → passes_proximity t p = true) := by
  rw [remove_point_eq]
  unfold passes_height_radius passes_proximity
  by_cases hl : laser = 1 <;>
  cases fp_lt p.z (.fin 0) || fp_gt p.z (.fin n.max_z) <;>
  cases fp_gt (computed_radius p) (.fin n.max_radius) <;>
  cases fp_gt (computed_distance t p) (.fin (1 / 4)) <;>
  simp [hl]

theorem remove_point_eq_not_passes (n : Node) (laser : Int) (t : StampedTransform)
    (p : PointXYZ) :
    (!remove_point n laser t p) =
      (passes_height_radius n.max_z n.max_radius p &&
        (!decide (laser = 1) || passes_proximity t p)) := by
  rw [remove_point_eq]
  unfold passes_height_radius passes_proximity
  cases fp_lt p.z (.fin 0) || fp_gt p.z (.fin n.max_z) <;>
  cases fp_gt (computed_radius p) (.fin n.max_radius) <;>
  cases fp_gt (computed_distance t p) (.fin (1 / 4)) <;>
  cases decide (laser = 1) <;> rfl

theorem crop_loop_some (n : Node) (laser : Int) (t : StampedTransform)
    (pcl_cloud : List PointXYZ) (i : Nat) :
    crop_loop n laser (some t) pcl_cloud i =
      some (pcl_cloud.take i ++
        (pcl_cloud.drop i).filter (fun p => !remove_point n laser t p)) := by
  induction pcl_cloud, i using crop_loop.induct n laser (some t) with
  | case1 l i h hl => cases hl
  | case2 l i h t1 ht hrem ih =>
    cases ht
    rw [crop_loop, dif_pos h]
    simp only []
    rw [if_pos hrem, ih]
    congr 1
    rw [List.eraseIdx_eq_take_drop_succ]
    have hlen : (List.take i l).length = i := by
      rw [List.length_take]; omega
    rw [List.take_append_eq_append_take, List.drop_append_eq_append_drop]
    simp only [hlen, List.take_take, min_self, Nat.sub_self, List.take_zero, List.append_nil,
      List.drop_zero]
    rw [List.drop_eq_nil_of_le (by omega : (List.take i l).length ≤ i), List.nil_append]
    congr 1
    rw [List.drop_eq_getElem_cons h, List.filter_cons]
    have : remove_point n laser t l[i] = true := hrem
    simp [this]
  | case3 l i h t1 ht hrem ih =>
    cases ht
    rw [crop_loop, dif_pos h]
    simp only []
    rw [if_neg hrem, ih]
    congr 1
    have : remove_point n laser t l[i] = false := by
      simpa using hrem
    rw [List.drop_eq_getElem_cons h, List.filter_cons, List.take_succ,
      List.getElem?_eq_getElem h]
    simp only [this, Bool.not_false, if_true, Option.toList, List.append_assoc,
      List.singleton_append]
  | case4 l i h =>
    rw [crop_loop, dif_neg h]
    have h1 : l.length ≤ i := by omega
    simp [List.take_of_length_le h1, List.drop_eq_nil_of_le h1]

theorem crop_cloud_filter (n : Node) (pcl_cloud : List PointXYZ) (laser : Int)
    (t : StampedTransform) :
    crop_cloud n pcl_cloud laser (some t) =
      some (pcl_cloud.filter (fun p => !remove_point n laser t p)) := by
  unfold crop_cloud
  rw [crop_loop_some]
  simp

theorem crop_cloud_nil (n : Node) (laser : Int) (lookup : Option StampedTransform) :
    crop_cloud n [] laser lookup = some [] := by
  unfold crop_cloud
  rw [crop_loop]
  simp

theorem crop_cloud_throw (n : Node) (p : PointXYZ) (l : List PointXYZ) (laser : Int) :
    crop_cloud n (p :: l) laser none = none := by
  unfold crop_cloud
  rw [crop_loop]
  simp

theorem crop_cloud_kept (n : Node) (pcl_cloud c : List PointXYZ) (laser : Int)
    (lookup : Option StampedTransform) (h : crop_cloud n pcl_cloud laser lookup = some c)
    (p : PointXYZ) (hp : p ∈ c) : ∃ t, remove_point n laser t p = false := by
  cases lookup with
  | none =>
    cases pcl_cloud with
    | nil =>
      rw [crop_cloud_nil] at h
      cases h
      cases hp
    | cons q l =>
      rw [crop_cloud_throw] at h
      cases h
  | some t =>
    rw [crop_cloud_filter] at h
    cases h
    refine ⟨t, ?_⟩
    have := (List.mem_filter.mp hp).2
    simpa using this

theorem remove_point_false_bounds (n : Node) (laser : Int) (t : StampedTransform)
    (p : PointXYZ) (h : remove_point n laser t p = false) :
    passes_height_radius n.max_z n.max_radius p = true :=
  ((remove_point_eq_false_iff n laser t p).mp h).1

theorem crop_cloud_bounds (n : Node) (pcl_cloud c : List PointXYZ) (laser : Int)
    (lookup : Option StampedTransform) (h : crop_cloud n pcl_cloud laser lookup = some c)
    (p : PointXYZ) (hp : p ∈ c) : passes_height_radius n.max_z n.max_radius p = true := by
  obtain ⟨t, ht⟩ := crop_cloud_kept n pcl_cloud c laser lookup h p hp
  exact remove_point_false_bounds n laser t p ht

theorem laser_1_cb_wait_failed (n : Node) (s : Scan) (hw : s.wait_ok = false) :
    laser_1_cb n s =
      { node := n, published := none, ready_logged := false, thrown := false } := by
  simp [laser_1_cb, hw]

theorem laser_2_cb_wait_failed (n : Node) (s : Scan) (hw : s.wait_ok = false) :
    laser_2_cb n s =
      { node := n, published := none, ready_logged := false, thrown := false } := by
  simp [laser_2_cb, hw]

theorem laser_1_cb_thrown (n : Node) (s : Scan) (hw : s.wait_ok = true)
    (hc : crop_cloud n s.projected 1 s.lookup = none) :
    laser_1_cb n s =
      { node := n, published := none, ready_logged := false, thrown := true } := by
  simp [laser_1_cb, hw, hc]

theorem laser_2_cb_thrown (n : Node) (s : Scan) (hw : s.wait_ok = true)
    (hc : crop_cloud n s.projected 2 s.lookup = none) :
    laser_2_cb n s =
      { node := n, published := none, ready_logged := false, thrown := true } := by
  simp [laser_2_cb, hw, hc]

theorem laser_1_cb_processed (n : Node) (s : Scan) (c : List PointXYZ)
    (hw : s.wait_ok = true) (hc : crop_cloud n s.projected 1 s.lookup = some c) :
    laser_1_cb n s =
      { node :=
          { n with
            starting_config := n.starting_config || decide (|n.angle| < 1 / 10)
            cloud1 :=
              if (n.starting_config || decide (|n.angle| < 1 / 10)) = true
              then n.cloud1 ++ c else n.cloud1 }
        published :=
          some (if (n.starting_config || decide (|n.angle| < 1 / 10)) = true
            then n.cloud1 ++ c else n.cloud1)
        ready_logged := !n.starting_config && decide (|n.angle| < 1 / 10)
        thrown := false } := by
  unfold laser_1_cb
  simp only [hw, hc, Bool.not_true, Bool.false_eq_true, if_false]
  obtain ⟨c1, c2, mz, mr, sc, a⟩ := n
  simp only []
  generalize decide (|a| < 1 / 10) = b
  cases sc <;> cases b <;> rfl

theorem laser_2_cb_processed (n : Node) (s : Scan) (c : List PointXYZ)
    (hw : s.wait_ok = true) (hc : crop_cloud n s.projected 2 s.lookup = some c) :
    laser_2_cb n s =
      { node :=
          { n with
            starting_config := n.starting_config || decide (|n.angle| < 1 / 10)
            cloud2 :=
              if (n.starting_config || decide (|n.angle| < 1 / 10)) = true
              then n.cloud2 ++ c else n.cloud2 }
        published :=
          some (if (n.starting_config || decide (|n.angle| < 1 / 10)) = true
            then n.cloud2 ++ c else n.cloud2)
        ready_logged := !n.starting_config && decide (|n.angle| < 1 / 10)
        thrown := false } := by
  unfold laser_2_cb
  simp only [hw, hc, Bool.not_true, Bool.false_eq_true, if_false]
  obtain ⟨c1, c2, mz, mr, sc, a⟩ := n
  simp only []
  generalize decide (|a| < 1 / 10) = b
  cases sc <;> cases b <;> rfl

theorem gate_check_closed (n : Node) (hg : n.starting_config = false)
    (ha : 1 / 10 ≤ |n.angle|) :
    (n.starting_config || decide (|n.angle| < 1 / 10)) = false := by
  rw [hg, Bool.false_or, decide_eq_false_iff_not]
  exact not_lt.mpr ha

theorem gate_check_open (n : Node) (h : n.starting_config = true ∨ |n.angle| < 1 / 10) :
    (n.starting_config || decide (|n.angle| < 1 / 10)) = true := by
  rcases h with h | h
  · rw [h, Bool.true_or]
  · rw [decide_eq_true h, Bool.or_true]

theorem crop_cloud_singleton_kept (n : Node) (laser : Int) (t : StampedTransform)
    (p : PointXYZ) (h : remove_point n laser t p = false) :
    crop_cloud n [p] laser (some t) = some [p] := by
  rw [crop_cloud_filter, List.filter_cons, h]
  rfl

theorem crop_cloud_singleton_removed (n : Node) (laser : Int) (t : StampedTransform)
    (p : PointXYZ) (h : remove_point n laser t p = true) :
    crop_cloud n [p] laser (some t) = some [] := by
  rw [crop_cloud_filter, List.filter_cons, h]
  rfl

theorem crop_cloud_pair_first_kept (n : Node) (laser : Int) (t : StampedTransform)
    (p q : PointXYZ) (hp : remove_point n laser t p = false)
    (hq : remove_point n laser t q = true) :
    crop_cloud n [p, q] laser (some t) = some [p] := by
  rw [crop_cloud_filter, List.filter_cons, hp, List.filter_cons, hq]
  rfl

theorem exec_singleton (n : Node) (e : Event) : exec n [e] = (step n e).node := by
  simp only [exec]
  split <;> rfl

theorem laser_1_cb_merges (n : Node) (s : Scan) (c : List PointXYZ) (hw : s.wait_ok = true)
    (hc : crop_cloud n s.projected 1 s.lookup = some c)
    (hopen : n.starting_config = true ∨ |n.angle| < 1 / 10) :
    (laser_1_cb n s).node.cloud1 = n.cloud1 ++ c ∧
      (laser_1_cb n s).published = some (n.cloud1 ++ c) := by
  rw [laser_1_cb_processed n s c hw hc]
  simp only [gate_check_open n hopen, if_true]
  exact ⟨trivial, trivial⟩

theorem laser_2_cb_merges (n : Node) (s : Scan) (c : List PointXYZ) (hw : s.wait_ok = true)
    (hc : crop_cloud n s.projected 2 s.lookup = some c)
    (hopen : n.starting_config = true ∨ |n.angle| < 1 / 10) :
    (laser_2_cb n s).node.cloud2 = n.cloud2 ++ c ∧
      (laser_2_cb n s).published = some (n.cloud2 ++ c) := by
  rw [laser_2_cb_processed n s c hw hc]
  simp only [gate_check_open n hopen, if_true]
  exact ⟨trivial, trivial⟩

theorem abs_zero_lt_tenth : |(0 : ℚ)| < 1 / 10 := by
  rw [abs_zero]
  norm_num

theorem tenth_le_abs_half : (1 : ℚ) / 10 ≤ |(1 : ℚ) / 2| := by
  rw [abs_of_pos (by norm_num)]
  norm_num

theorem abs_twentieth_lt_tenth : |(1 : ℚ) / 20| < 1 / 10 := by
  rw [abs_of_pos (by norm_num)]
  norm_num

theorem round_double_of_pos (q : ℚ) (e m : ℤ) (h1 : (2 : ℚ) ^ e ≤ q)
    (h2 : q < (2 : ℚ) ^ (e + 1)) (he : -1022 ≤ e)
    (hm1 : (m : ℚ) - 1 / 2 < q / 2 ^ (e - 52)) (hm2 : q / 2 ^ (e - 52) < (m : ℚ) + 1 / 2)
    (hfin : (m : ℚ) * 2 ^ (e - 52) < 2 ^ 1024) :
    round_double q = Fp.fin ((m : ℚ) * 2 ^ (e - 52)) := by
  have hq : 0 < q := lt_of_lt_of_le (zpow_pos (by norm_num) e) h1
  have hu : (0 : ℚ) < 2 ^ (e - 52) := zpow_pos (by norm_num) _
  have hm0 : (0 : ℚ) ≤ (m : ℚ) * 2 ^ (e - 52) := by
    have h3 : (0 : ℚ) < (m : ℚ) + 1 / 2 := lt_trans (div_pos hq hu) hm2
    have h4 : (0 : ℤ) ≤ m := by
      by_contra hneg
      have : m ≤ -1 := by omega
      have : (m : ℚ) ≤ -1 := by exact_mod_cast this
      linarith
    have h5 : (0 : ℚ) ≤ (m : ℚ) := by exact_mod_cast h4
    exact mul_nonneg h5 hu.le
  apply round_double_eq q e m _ _ he hm1 hm2
  · rw [abs_of_nonneg hm0]
    exact hfin
  · rw [abs_of_pos hq]
    exact h1
  · rw [abs_of_pos hq]
    exact h2


theorem round_double_of_neg (q : ℚ) (e m : ℤ) (h1 : (2 : ℚ) ^ e ≤ -q)
    (h2 : -q < (2 : ℚ) ^ (e + 1)) (he : -1022 ≤ e)
    (hm1 : (m : ℚ) - 1 / 2 < q / 2 ^ (e - 52)) (hm2 : q / 2 ^ (e - 52) < (m : ℚ) + 1 / 2)
    (hfin : -((m : ℚ) * 2 ^ (e - 52)) < 2 ^ 1024) :
    round_double q = Fp.fin ((m : ℚ) * 2 ^ (e - 52)) := by
  have hq : q < 0 := by
    have : (0 : ℚ) < -q := lt_of_lt_of_le (zpow_pos (by norm_num) e) h1
    linarith
  have hu : (0 : ℚ) < 2 ^ (e - 52) := zpow_pos (by norm_num) _
  have hm0 : (m : ℚ) * 2 ^ (e - 52) ≤ 0 := by
    have h3 : (m : ℚ) - 1 / 2 < 0 := lt_trans hm1 (div_neg_of_neg_of_pos hq hu)
    have h4 : m ≤ (0 : ℤ) := by
      by_contra hpos
      have : 1 ≤ m := by omega
      have : (1 : ℚ) ≤ (m : ℚ) := by exact_mod_cast this
      linarith
    have h5 : (m : ℚ) ≤ 0 := by exact_mod_cast h4
    exact mul_nonpos_of_nonpos_of_nonneg h5 hu.le
  apply round_double_eq q e m _ _ he hm1 hm2
  · rw [abs_of_nonpos hm0]
    exact hfin
  · rw [abs_of_neg hq]
    exact h1
  · rw [abs_of_neg hq]
    exact h2


theorem round_double_sq_0_05 :
    round_double (float_0_05 * float_0_05) = .fin (180143990463529 / 72057594037927936) := by
  rw [round_double_of_pos _ (-9) 5764607694832928 (by norm_num [float_0_05])
    (by norm_num [float_0_05]) (by norm_num) (by norm_num [float_0_05])
    (by norm_num [float_0_05]) (by norm_num)]
  norm_num


theorem round_double_sq_0_02 :
    round_double (float_0_02 * float_0_02) = .fin (28823036326681 / 72057594037927936) := by
  rw [round_double_of_pos _ (-12) 7378697299630336 (by norm_num [float_0_02])
    (by norm_num [float_0_02]) (by norm_num) (by norm_num [float_0_02])
    (by norm_num [float_0_02]) (by norm_num)]
  norm_num


theorem round_double_sum_scenario :
    round_double (180143990463529 / 72057594037927936 +
      28823036326681 / 72057594037927936) = .fin (104483513395105 / 36028797018963968) := by
  rw [round_double_of_pos _ (-9) 6686944857286720 (by norm_num) (by norm_num)
    (by norm_num) (by norm_num) (by norm_num) (by norm_num)]
  norm_num


theorem sqrt_double_scenario :
    sqrt_double (104483513395105 / 36028797018963968) =
      970105058220557 / 18014398509481984 := by
  rw [sqrt_double_eq _ (-5) 7760840465764456 (by norm_num) (by norm_num) (by norm_num)
    (by norm_num) (by norm_num)]
  norm_num


theorem fp_pow2_fin (a : ℚ) : fp_pow2 (.fin a) = round_double (a * a) := rfl

theorem fp_add_fin (a b : ℚ) : fp_add (.fin a) (.fin b) = round_double (a + b) := rfl

theorem fp_sub_fin (a b : ℚ) : fp_sub (.fin a) (.fin b) = round_double (a - b) := rfl

theorem fp_sqrt_fin_pos (v : ℚ) (h : 0 < v) : fp_sqrt (.fin v) = .fin (sqrt_double v) := by
  show (if v < 0 then Fp.nan else if v = 0 then Fp.fin 0 else Fp.fin (sqrt_double v)) = _
  rw [if_neg (not_lt.mpr h.le), if_neg (ne_of_gt h)]

theorem fp_sqrt_fin_zero : fp_sqrt (.fin 0) = .fin 0 := by
  show (if (0 : ℚ) < 0 then Fp.nan
    else if (0 : ℚ) = 0 then Fp.fin 0 else Fp.fin (sqrt_double 0)) = _
  rw [if_neg (lt_irrefl 0), if_pos rfl]

theorem fp_lt_fin (a b : ℚ) : fp_lt (.fin a) (.fin b) = decide (a < b) := rfl

theorem fp_gt_fin (a b : ℚ) : fp_gt (.fin a) (.fin b) = decide (b < a) := rfl

theorem computed_radius_scenario_point :
    computed_radius scenario_point = .fin (970105058220557 / 18014398509481984) := by
  unfold computed_radius scenario_point
  rw [fp_pow2_fin, fp_pow2_fin, round_double_sq_0_05, round_double_sq_0_02, fp_add_fin,
    round_double_sum_scenario, fp_sqrt_fin_pos _ (by norm_num), sqrt_double_scenario]

theorem computed_distance_scenario_point :
    computed_distance ⟨0, 0⟩ scenario_point =
      .fin (970105058220557 / 18014398509481984) := by
  have hsx : round_double (0 - float_0_05) = .fin (-float_0_05) := by
    rw [round_double_of_neg _ (-5) (-7205759511166976) (by norm_num [float_0_05])
      (by norm_num [float_0_05]) (by norm_num) (by norm_num [float_0_05])
      (by norm_num [float_0_05]) (by norm_num)]
    norm_num [float_0_05]
  have hsy : round_double (0 - float_0_02) = .fin (-float_0_02) := by
    rw [round_double_of_neg _ (-6) (-5764607394185216) (by norm_num [float_0_02])
      (by norm_num [float_0_02]) (by norm_num) (by norm_num [float_0_02])
      (by norm_num [float_0_02]) (by norm_num)]
    norm_num [float_0_02]
  unfold computed_distance scenario_point
  rw [fp_sub_fin, fp_sub_fin, hsx, hsy, fp_pow2_fin, fp_pow2_fin, neg_mul_neg, neg_mul_neg,
    round_double_sq_0_05, round_double_sq_0_02, fp_add_fin, round_double_sum_scenario,
    fp_sqrt_fin_pos _ (by norm_num), sqrt_double_scenario]

theorem remove_point_scenario_point (n : Node) (laser : Int) (hz : n.max_z = 1 / 4)
    (hr : n.max_radius = double_0_127) :
    remove_point n laser ⟨0, 0⟩ scenario_point = false := by
  have hpz : scenario_point.z = .fin float_0_1 := rfl
  have h1 : decide (float_0_1 < 0) = false := decide_eq_false (by norm_num [float_0_1])
  have h2 : decide ((1 : ℚ) / 4 < float_0_1) = false :=
    decide_eq_false (by norm_num [float_0_1])
  have h3 : decide (double_0_127 < (970105058220557 : ℚ) / 18014398509481984) = false :=
    decide_eq_false (by norm_num [double_0_127])
  have h4 : decide ((1 : ℚ) / 4 < (970105058220557 : ℚ) / 18014398509481984) = false :=
    decide_eq_false (by norm_num)
  rw [remove_point_eq, computed_radius_scenario_point, computed_distance_scenario_point,
    hz, hr, hpz, fp_lt_fin, fp_gt_fin, fp_gt_fin, fp_gt_fin, h1, h2, h3, h4]
  rfl

theorem remove_point_high_point (n : Node) (laser : Int) (t : StampedTransform)
    (hz : n.max_z = 1 / 4) : remove_point n laser t high_point = true := by
  have hpz : high_point.z = .fin float_0_3 := rfl
  have h2 : decide ((1 : ℚ) / 4 < float_0_3) = true :=
    decide_eq_true (by norm_num [float_0_3])
  rw [remove_point_eq, hz, hpz, fp_gt_fin, h2, Bool.or_true, Bool.true_or]

theorem round_double_quarter_plus : round_double (1 / 4 + 1 / 2 ^ 80) = .fin (1 / 4) := by
  rw [round_double_of_pos _ (-2) (2 ^ 52) (by norm_num) (by norm_num) (by norm_num)
    (by norm_num) (by norm_num) (by norm_num)]
  norm_num

theorem round_double_sixteenth_plus :
    round_double (1 / 16 + 1 / 2 ^ 80) = .fin (1 / 16) := by
  rw [round_double_of_pos _ (-4) (2 ^ 52) (by norm_num) (by norm_num) (by norm_num)
    (by norm_num) (by norm_num) (by norm_num)]
  norm_num

theorem round_double_sq_half : round_double (1 / 2 * (1 / 2)) = .fin (1 / 4) := by
  rw [round_double_of_pos _ (-2) (2 ^ 52) (by norm_num) (by norm_num) (by norm_num)
    (by norm_num) (by norm_num) (by norm_num)]
  norm_num

theorem round_double_sq_quarter : round_double (1 / 4 * (1 / 4)) = .fin (1 / 16) := by
  rw [round_double_of_pos _ (-4) (2 ^ 52) (by norm_num) (by norm_num) (by norm_num)
    (by norm_num) (by norm_num) (by norm_num)]
  norm_num

theorem round_double_sq_tiny :
    round_double (1 / 2 ^ 40 * (1 / 2 ^ 40)) = .fin (1 / 2 ^ 80) := by
  rw [round_double_of_pos _ (-80) (2 ^ 52) (by norm_num) (by norm_num) (by norm_num)
    (by norm_num) (by norm_num) (by norm_num)]
  norm_num

theorem sqrt_double_quarter : sqrt_double (1 / 4) = 1 / 2 := by
  rw [sqrt_double_eq _ (-1) (2 ^ 52) (by norm_num) (by norm_num) (by norm_num)
    (by norm_num) (by norm_num)]
  norm_num

theorem sqrt_double_sixteenth : sqrt_double (1 / 16) = 1 / 4 := by
  rw [sqrt_double_eq _ (-2) (2 ^ 52) (by norm_num) (by norm_num) (by norm_num)
    (by norm_num) (by norm_num)]
  norm_num

theorem computed_radius_rounding_point : computed_radius rounding_point = .fin (1 / 2) := by
  unfold computed_radius rounding_point
  rw [fp_pow2_fin, fp_pow2_fin, round_double_sq_half, round_double_sq_tiny, fp_add_fin,
    round_double_quarter_plus, fp_sqrt_fin_pos _ (by norm_num), sqrt_double_quarter]

theorem remove_point_rounding_point (n : Node) (laser : Int) (t : StampedTransform)
    (hl : laser ≠ 1) (hz : 0 ≤ n.max_z) (hr : n.max_radius = 1 / 2) :
    remove_point n laser t rounding_point = false := by
  have hpz : rounding_point.z = .fin 0 := rfl
  have h1 : decide ((0 : ℚ) < 0) = false := decide_eq_false (lt_irrefl 0)
  have h2 : decide (n.max_z < 0) = false := decide_eq_false (not_lt.mpr hz)
  have h3 : decide ((1 : ℚ) / 2 < 1 / 2) = false := decide_eq_false (lt_irrefl _)
  have h4 : decide (laser = 1) = false := decide_eq_false hl
  rw [remove_point_eq, computed_radius_rounding_point, hr, hpz, fp_lt_fin, fp_gt_fin,
    fp_gt_fin, h1, h2, h3, h4, Bool.and_false]
  rfl

theorem computed_radius_origin_point : computed_radius origin_point = .fin 0 := by
  unfold computed_radius origin_point
  rw [fp_pow2_fin, mul_zero, round_double_zero, fp_add_fin, add_zero, round_double_zero,
    fp_sqrt_fin_zero]

theorem computed_distance_origin_point :
    computed_distance ⟨1 / 4, 1 / 2 ^ 40⟩ origin_point = .fin (1 / 4) := by
  have hsx : round_double (1 / 4 - 0) = .fin (1 / 4) := by
    rw [round_double_of_pos _ (-2) (2 ^ 52) (by norm_num) (by norm_num) (by norm_num)
      (by norm_num) (by norm_num) (by norm_num)]
    norm_num
  have hsy : round_double (1 / 2 ^ 40 - 0) = .fin (1 / 2 ^ 40) := by
    rw [round_double_of_pos _ (-40) (2 ^ 52) (by norm_num) (by norm_num) (by norm_num)
      (by norm_num) (by norm_num) (by norm_num)]
    norm_num
  unfold computed_distance origin_point
  rw [fp_sub_fin, fp_sub_fin, hsx, hsy, fp_pow2_fin, fp_pow2_fin, round_double_sq_quarter,
    round_double_sq_tiny, fp_add_fin, round_double_sixteenth_plus,
    fp_sqrt_fin_pos _ (by norm_num), sqrt_double_sixteenth]

theorem remove_point_origin_point (n : Node) (laser : Int) (hz : 0 ≤ n.max_z)
    (hr : 0 ≤ n.max_radius) :
    remove_point n laser ⟨1 / 4, 1 / 2 ^ 40⟩ origin_point = false := by
  have hpz : origin_point.z = .fin 0 := rfl
  have h1 : decide ((0 : ℚ) < 0) = false := decide_eq_false (lt_irrefl 0)
  have h2 : decide (n.max_z < 0) = false := decide_eq_false (not_lt.mpr hz)
  have h3 : decide (n.max_radius < 0) = false := decide_eq_false (not_lt.mpr hr)
  have h4 : decide ((1 : ℚ) / 4 < 1 / 4) = false := decide_eq_false (lt_irrefl _)
  rw [remove_point_eq, computed_radius_origin_point, computed_distance_origin_point, hpz,
    fp_lt_fin, fp_gt_fin, fp_gt_fin, fp_gt_fin, h1, h2, h3, h4]
  rfl

theorem step_within (mz mr : ℚ) (n : Node) (e : Event) (h : clouds_within mz mr n) :
    clouds_within mz mr (step n e).node ∧
      ∀ c, (step n e).published = some c → ∀ p ∈ c, passes_height_radius mz mr p = true := by
  obtain ⟨hz, hr, h1, h2⟩ := h
  cases e with
  | motor a => exact ⟨⟨hz, hr, h1, h2⟩, by simp [step, motor_cb]⟩
  | laser_1 s =>
    simp only [step]
    cases hw : s.wait_ok with
    | false =>
      rw [laser_1_cb_wait_failed n s hw]
      exact ⟨⟨hz, hr, h1, h2⟩, by simp⟩
    | true =>
      cases hc : crop_cloud n s.projected 1 s.lookup with
      | none =>
        rw [laser_1_cb_thrown n s hw hc]
        exact ⟨⟨hz, hr, h1, h2⟩, by simp⟩
      | some c =>
        have hb := crop_cloud_bounds n s.projected c 1 s.lookup hc
        rw [hz, hr] at hb
        rw [laser_1_cb_processed n s c hw hc]
        have hall : ∀ p ∈ (if (n.starting_config || decide (|n.angle| < 1 / 10)) = true
            then n.cloud1 ++ c else n.cloud1), passes_height_radius mz mr p = true := by
          intro p hp
          split at hp
          · rcases List.mem_append.mp hp with hp | hp
            · exact h1 p hp
            · exact hb p hp
          · exact h1 p hp
        refine ⟨⟨hz, hr, hall, h2⟩, ?_⟩
        intro c1 hc1 p hp
        simp only [Option.some.injEq] at hc1
        subst hc1
        exact hall p hp
  | laser_2 s =>
    simp only [step]
    cases hw : s.wait_ok with
    | false =>
      rw [laser_2_cb_wait_failed n s hw]
      exact ⟨⟨hz, hr, h1, h2⟩, by simp⟩
    | true =>
      cases hc : crop_cloud n s.projected 2 s.lookup with
      | none =>
        rw [laser_2_cb_thrown n s hw hc]
        exact ⟨⟨hz, hr, h1, h2⟩, by simp⟩
      | some c =>
        have hb := crop_cloud_bounds n s.projected c 2 s.lookup hc
        rw [hz, hr] at hb
        rw [laser_2_cb_processed n s c hw hc]
        have hall : ∀ p ∈ (if (n.starting_config || decide (|n.angle| < 1 / 10)) = true
            then n.cloud2 ++ c else n.cloud2), passes_height_radius mz mr p = true := by
          intro p hp
          split at hp
          · rcases List.mem_append.mp hp with hp | hp
            · exact h2 p hp
            · exact hb p hp
          · exact h2 p hp
        refine ⟨⟨hz, hr, h1, hall⟩, ?_⟩
        intro c1 hc1 p hp
        simp only [Option.some.injEq] at hc1
        subst hc1
        exact hall p hp

theorem exec_within (mz mr : ℚ) (es : List Event) :
    ∀ n : Node, clouds_within mz mr n → clouds_within mz mr (exec n es) := by
  induction es with
  | nil => intro n h; exact h
  | cons e es ih =>
    intro n h
    have hs := (step_within mz mr n e h).1
    simp only [exec]
    split
    · exact hs
    · exact ih _ hs

theorem run_within (mz mr : ℚ) (es : List Event) :
    ∀ n : Node, clouds_within mz mr n →
      ∀ o ∈ run n es, ∀ c, o.published = some c → ∀ p ∈ c, passes_height_radius mz mr p = true := by
  induction es with
  | nil => intro n _ o ho; cases ho
  | cons e es ih =>
    intro n h o ho
    have hs := step_within mz mr n e h
    simp only [run, List.mem_cons] at ho
    rcases ho with ho | ho
    · subst ho
      exact hs.2
    · split at ho
      · cases ho
      · exact ih _ hs.1 o ho

theorem init_within (mz mr a : ℚ) : clouds_within mz mr (Node.init mz mr a) := by
  refine ⟨rfl, rfl, ?_, ?_⟩ <;> intro p hp <;> cases hp

theorem passes_height_radius_height (mz mr : ℚ) (p : PointXYZ)
    (h : passes_height_radius mz mr p = true) :
    (p.z = .nan ∨ ∃ z : ℚ, p.z = .fin z ∧ 0 ≤ z ∧ z ≤ mz) ∧
      fp_gt (computed_radius p) (.fin mr) = false := by
  unfold passes_height_radius at h
  simp only [Bool.and_eq_true, Bool.not_eq_true', Bool.or_eq_false_iff] at h
  obtain ⟨⟨h1, h2⟩, h3⟩ := h
  refine ⟨?_, h3⟩
  cases hz : p.z with
  | nan => exact Or.inl rfl
  | pos_inf =>
    rw [hz] at h2
    simp [fp_gt, fp_lt] at h2
  | neg_inf =>
    rw [hz] at h1
    simp [fp_lt] at h1
  | fin z =>
    rw [hz] at h1 h2
    simp only [fp_gt, fp_lt, decide_eq_false_iff_not, not_lt] at h1 h2
    exact Or.inr ⟨z, rfl, h1, h2⟩

theorem rounding_point_outside_bounds :
    ¬ spec_within_bounds (1 / 4) (1 / 2) rounding_point := by
  rintro ⟨x, y, z, hp, _, hr⟩
  simp only [rounding_point, PointXYZ.mk.injEq, Fp.fin.injEq] at hp
  obtain ⟨hx, hy, _⟩ := hp
  rw [← hx, ← hy] at hr
  have hlt : ((1 / 2 : ℚ) : ℝ) < Real.sqrt ((((1 / 2 : ℚ)) : ℝ) ^ 2 +
      (((1 / 2 ^ 40 : ℚ)) : ℝ) ^ 2) := by
    rw [Real.lt_sqrt (by norm_num)]
    norm_num
  exact absurd hr (not_le.mpr hlt)

/-- C1, as stated, fails on the code. With `max_radius = 0.5` and the gate
opening at angle 0, a device-2 scan of the point (0.5, 2^-40, 0) accumulates
and publishes the point: in double, `0.25 + 2^-80` rounds to 0.25, whose square
root 0.5 is not greater than `max_radius`. Taken as exact reals its radius is
above 0.5. -/
theorem rounded_radius_point_is_published :
    (exec (Node.init (1 / 4) (1 / 2) 0)
        [Event.laser_2 ⟨true, [rounding_point], some ⟨0, 0⟩⟩]).cloud2 = [rounding_point] ∧
      (laser_2_cb (Node.init (1 / 4) (1 / 2) 0)
        ⟨true, [rounding_point], some ⟨0, 0⟩⟩).published = some [rounding_point] ∧
      ¬ spec_within_bounds (1 / 4) (1 / 2) rounding_point := by
  have hz : (0 : ℚ) ≤ (Node.init (1 / 4) (1 / 2) 0).max_z := by
    show (0 : ℚ) ≤ 1 / 4
    norm_num
  have hrem := remove_point_rounding_point (Node.init (1 / 4) (1 / 2) 0) 2 ⟨0, 0⟩
    (by decide) hz rfl
  have hc := crop_cloud_singleton_kept _ _ _ _ hrem
  have hm := laser_2_cb_merges (Node.init (1 / 4) (1 / 2) 0)
    ⟨true, [rounding_point], some ⟨0, 0⟩⟩ [rounding_point] rfl hc
    (Or.inr abs_zero_lt_tenth)
  refine ⟨?_, hm.2, rounding_point_outside_bounds⟩
  rw [exec_singleton]
  exact hm.1

/-- C1 as amended: from the initial state, after any finite sequence of events,
every point of `cloud1` and of `cloud2`, and every point of every published
cloud, passed the height and radius tests as the program evaluates them in
double: its `z` is NaN or a number with `0 <= z <= max_z`, and its computed
radius is not greater than `max_radius`. With `max_z = 0.25` no published
cloud holds a point whose `z` is a number above 0.25, such as 0.3. -/
theorem reachable_points_pass_crop_tests (max_z max_radius angle : ℚ) (es : List Event) :
    (∀ p, p ∈ (exec (Node.init max_z max_radius angle) es).cloud1 ∨
        p ∈ (exec (Node.init max_z max_radius angle) es).cloud2 →
        (p.z = .nan ∨ ∃ z : ℚ, p.z = .fin z ∧ 0 ≤ z ∧ z ≤ max_z) ∧
          fp_gt (computed_radius p) (.fin max_radius) = false) ∧
    (∀ o ∈ run (Node.init max_z max_radius angle) es, ∀ c, o.published = some c →
        ∀ p ∈ c, (p.z = .nan ∨ ∃ z : ℚ, p.z = .fin z ∧ 0 ≤ z ∧ z ≤ max_z) ∧
          fp_gt (computed_radius p) (.fin max_radius) = false) ∧
    (max_z = 1 / 4 →
      ∀ o ∈ run (Node.init max_z max_radius angle) es, ∀ c, o.published = some c →
        ∀ p ∈ c, ∀ z : ℚ, 1 / 4 < z → p.z ≠ .fin z) := by
  have hi := init_within max_z max_radius angle
  have he := exec_within max_z max_radius es _ hi
  have hr := run_within max_z max_radius es _ hi
  refine ⟨?_, ?_, ?_⟩
  · rintro p (hp | hp)
    · exact passes_height_radius_height _ _ p (he.2.2.1 p hp)
    · exact passes_height_radius_height _ _ p (he.2.2.2 p hp)
  · intro o ho c hc p hp
    exact passes_height_radius_height _ _ p (hr o ho c hc p hp)
  · intro hz o ho c hc p hp z hlt hpz
    rcases (passes_height_radius_height _ _ p (hr o ho c hc p hp)).1 with h | ⟨z1, h1, _, h2⟩
    · rw [hpz] at h
      cases h
    · rw [hpz] at h1
      cases h1
      rw [hz] at h2
      exact absurd hlt (not_lt.mpr h2)

/-- C1 as amended, at a run that opens the gate and scans a batch holding the
point (0.05, 0.02, 0.1) and the point (0.05, 0.02, 0.3): the first is
accumulated and passed the tests. -/
theorem reachable_points_pass_crop_tests_witness :
    scenario_point ∈
        (exec (Node.init (1 / 4) double_0_127 0)
          [Event.laser_1 ⟨true, [scenario_point, high_point], some ⟨0, 0⟩⟩]).cloud1 ∧
      ((scenario_point.z = .nan ∨
          ∃ z : ℚ, scenario_point.z = .fin z ∧ 0 ≤ z ∧ z ≤ 1 / 4) ∧
        fp_gt (computed_radius scenario_point) (.fin double_0_127) = false) := by
  have h1 := remove_point_scenario_point (Node.init (1 / 4) double_0_127 0) 1 rfl rfl
  have h2 := remove_point_high_point (Node.init (1 / 4) double_0_127 0) 1 ⟨0, 0⟩ rfl
  have hc := crop_cloud_pair_first_kept _ _ _ _ _ h1 h2
  have hm := laser_1_cb_merges (Node.init (1 / 4) double_0_127 0)
    ⟨true, [scenario_point, high_point], some ⟨0, 0⟩⟩ [scenario_point] rfl hc
    (Or.inr abs_zero_lt_tenth)
  have hmem : scenario_point ∈
      (exec (Node.init (1 / 4) double_0_127 0)
        [Event.laser_1 ⟨true, [scenario_point, high_point], some ⟨0, 0⟩⟩]).cloud1 := by
    rw [exec_singleton]
    show scenario_point ∈ (laser_1_cb (Node.init (1 / 4) double_0_127 0)
      ⟨true, [scenario_point, high_point], some ⟨0, 0⟩⟩).node.cloud1
    rw [hm.1]
    exact List.mem_append.mpr (Or.inr (List.mem_singleton.mpr rfl))
  exact ⟨hmem,
    (reachable_points_pass_crop_tests (1 / 4) double_0_127 0 _).1 _ (Or.inl hmem)⟩

theorem origin_point_not_accepted :
    ¬ spec_accept_device_1 (1 / 4) double_0_127 ⟨1 / 4, 1 / 2 ^ 40⟩ origin_point := by
  rintro ⟨x, y, z, hp, _, _, hd⟩
  simp only [origin_point, PointXYZ.mk.injEq, Fp.fin.injEq] at hp
  obtain ⟨hx, hy, _⟩ := hp
  subst hx hy
  have hlt : (1 / 4 : ℝ) < Real.sqrt ((((1 / 4 : ℚ) : ℝ) - ((0 : ℚ) : ℝ)) ^ 2 +
      (((1 / 2 ^ 40 : ℚ) : ℝ) - ((0 : ℚ) : ℝ)) ^ 2) := by
    rw [Real.lt_sqrt (by norm_num)]
    norm_num
  exact absurd hd (not_le.mpr hlt)

/-- C2, as stated, fails on the code. With the default bounds, device 1 and the
origin of the transform at (0.25, 2^-40), `crop_cloud` keeps the point
(0, 0, 0): in double, `0.0625 + 2^-80` rounds to 0.0625, whose square root 0.25
is not greater than 0.25. Taken as exact reals the distance is above 0.25, so
the filter by the rule of the spec drops the point. -/
theorem rounded_distance_point_is_kept :
    crop_cloud (Node.init (1 / 4) double_0_127 0) [origin_point] 1
        (some ⟨1 / 4, 1 / 2 ^ 40⟩) = some [origin_point] ∧
      ¬ spec_accept_device_1 (1 / 4) double_0_127 ⟨1 / 4, 1 / 2 ^ 40⟩ origin_point ∧
      [origin_point].filter (fun p =>
        @decide (spec_accept_device_1 (1 / 4) double_0_127 ⟨1 / 4, 1 / 2 ^ 40⟩ p)
          (Classical.propDecidable _)) = [] := by
  have hz : (0 : ℚ) ≤ (Node.init (1 / 4) double_0_127 0).max_z := by
    show (0 : ℚ) ≤ 1 / 4
    norm_num
  have hr : (0 : ℚ) ≤ (Node.init (1 / 4) double_0_127 0).max_radius := by
    show (0 : ℚ) ≤ double_0_127
    norm_num [double_0_127]
  have hrem := remove_point_origin_point (Node.init (1 / 4) double_0_127 0) 1 hz hr
  refine ⟨crop_cloud_singleton_kept _ _ _ _ hrem, origin_point_not_accepted, ?_⟩
  rw [List.filter_cons,
    @decide_eq_false _ (Classical.propDecidable _) origin_point_not_accepted]
  rfl

theorem passes_proximity_iff (t : StampedTransform) (p : PointXYZ) :
    passes_proximity t p = true ↔ fp_gt (computed_distance t p) (.fin (1 / 4)) = false := by
  unfold passes_proximity
  simp

/-- C2 as amended: for device 1 and a lookup that succeeds with origin
`(tx, ty)`, `crop_cloud` returns, and what it leaves in the batch is the batch
filtered in one pass, order and multiplicity kept, by the three tests as the
program evaluates them in double: a point is kept exactly when its `z` is NaN
or a number with `0 <= z <= max_z`, its computed radius is not greater than
`max_radius` and its computed distance to `(tx, ty)` is not greater than
0.25. -/
theorem crop_cloud_device_1_is_computed_filter (n : Node) (pcl_cloud : List PointXYZ)
    (t : StampedTransform) :
    crop_cloud n pcl_cloud 1 (some t) =
        some (pcl_cloud.filter (fun p =>
          passes_height_radius n.max_z n.max_radius p && passes_proximity t p)) ∧
      ∀ p, (passes_height_radius n.max_z n.max_radius p && passes_proximity t p) = true →
        (p.z = .nan ∨ ∃ z : ℚ, p.z = .fin z ∧ 0 ≤ z ∧ z ≤ n.max_z) ∧
          fp_gt (computed_radius p) (.fin n.max_radius) = false ∧
          fp_gt (computed_distance t p) (.fin (1 / 4)) = false := by
  constructor
  · rw [crop_cloud_filter]
    congr 1
    apply List.filter_congr
    intro p _
    rw [remove_point_eq_not_passes]
    simp
  · intro p hp
    rw [Bool.and_eq_true] at hp
    have h := passes_height_radius_height _ _ p hp.1
    exact ⟨h.1, h.2, (passes_proximity_iff t p).mp hp.2⟩

/-- C2 as amended, at the default bounds, the origin of the transform at (0, 0)
and the point (0.05, 0.02, 0.1): the point passes the three computed tests, so
it is kept, and its height is within the bounds. -/
theorem crop_cloud_device_1_is_computed_filter_witness :
    (passes_height_radius (1 / 4) double_0_127 scenario_point &&
        passes_proximity ⟨0, 0⟩ scenario_point) = true ∧
      ((scenario_point.z = .nan ∨
          ∃ z : ℚ, scenario_point.z = .fin z ∧ 0 ≤ z ∧ z ≤ 1 / 4) ∧
        fp_gt (computed_radius scenario_point) (.fin double_0_127) = false ∧
        fp_gt (computed_distance ⟨0, 0⟩ scenario_point) (.fin (1 / 4)) = false) := by
  have hrem := remove_point_scenario_point (Node.init (1 / 4) double_0_127 0) 1 rfl rfl
  have hnot := remove_point_eq_not_passes (Node.init (1 / 4) double_0_127 0) 1 ⟨0, 0⟩
    scenario_point
  rw [hrem] at hnot
  have hdec : decide ((1 : ℤ) = 1) = true := decide_eq_true rfl
  rw [hdec] at hnot
  have hpass : (passes_height_radius (1 / 4) double_0_127 scenario_point &&
      passes_proximity ⟨0, 0⟩ scenario_point) = true := by
    have h2 : (passes_height_radius (Node.init (1 / 4) double_0_127 0).max_z
        (Node.init (1 / 4) double_0_127 0).max_radius scenario_point &&
        (!true || passes_proximity ⟨0, 0⟩ scenario_point)) = true := hnot.symm
    simpa using h2
  exact ⟨hpass,
    (crop_cloud_device_1_is_computed_filter (Node.init (1 / 4) double_0_127 0) []
      ⟨0, 0⟩).2 scenario_point hpass⟩

theorem step_gate (n : Node) (e : Event) :
    ((step n e).node.starting_config = n.starting_config ∨
      (n.starting_config = false ∧ (step n e).node.starting_config = true)) ∧
    (step n e).ready_logged = (!n.starting_config && (step n e).node.starting_config) := by
  cases e with
  | motor a => cases h : n.starting_config <;> simp [step, motor_cb, h]
  | laser_1 s =>
    simp only [step]
    cases hw : s.wait_ok with
    | false =>
      rw [laser_1_cb_wait_failed n s hw]
      cases h : n.starting_config <;> simp [h]
    | true =>
      cases hc : crop_cloud n s.projected 1 s.lookup with
      | none =>
        rw [laser_1_cb_thrown n s hw hc]
        cases h : n.starting_config <;> simp [h]
      | some c =>
        rw [laser_1_cb_processed n s c hw hc]
        cases h : n.starting_config <;> cases decide (|n.angle| < 1 / 10) <;> simp
  | laser_2 s =>
    simp only [step]
    cases hw : s.wait_ok with
    | false =>
      rw [laser_2_cb_wait_failed n s hw]
      cases h : n.starting_config <;> simp [h]
    | true =>
      cases hc : crop_cloud n s.projected 2 s.lookup with
      | none =>
        rw [laser_2_cb_thrown n s hw hc]
        cases h : n.starting_config <;> simp [h]
      | some c =>
        rw [laser_2_cb_processed n s c hw hc]
        cases h : n.starting_config <;> cases decide (|n.angle| < 1 / 10) <;> simp

theorem step_gate_stays_open (n : Node) (e : Event) (h : n.starting_config = true) :
    (step n e).node.starting_config = true := by
  rcases (step_gate n e).1 with h1 | h1
  · rw [h1, h]
  · exact h1.2

theorem openings_of_open (es : List Event) :
    ∀ n : Node, n.starting_config = true → openings n es = 0 := by
  induction es with
  | nil => intro n _; rfl
  | cons e es ih =>
    intro n h
    simp only [openings, h, Bool.not_true, Bool.false_and, Bool.false_eq_true, if_false,
      Nat.zero_add]
    split
    · rfl
    · exact ih _ (step_gate_stays_open n e h)

theorem openings_le_one (es : List Event) : ∀ n : Node, openings n es ≤ 1 := by
  induction es with
  | nil => intro n; simp [openings]
  | cons e es ih =>
    intro n
    simp only [openings]
    by_cases ho : (!n.starting_config && (step n e).node.starting_config) = true
    · have h2 : (step n e).node.starting_config = true := by
        simp only [Bool.and_eq_true] at ho
        exact ho.2
      rw [if_pos ho]
      split
      · omega
      · rw [openings_of_open es _ h2]
    · rw [if_neg ho]
      split
      · omega
      · have := ih (step n e).node
        omega

theorem ready_signals_eq_openings (es : List Event) :
    ∀ n : Node, ready_signals n es = openings n es := by
  induction es with
  | nil => intro n; rfl
  | cons e es ih =>
    intro n
    have hr := (step_gate n e).2
    have ih1 := ih (step n e).node
    unfold ready_signals at ih1 ⊢
    simp only [run, openings, List.filter_cons, hr]
    by_cases ho : (!n.starting_config && (step n e).node.starting_config) = true
    · rw [if_pos ho, if_pos ho]
      split
      · simp
      · simp only [List.length_cons, ih1]
        omega
    · rw [if_neg ho, if_neg ho]
      split
      · simp
      · simp only [ih1]
        omega

/-- C3: the gate is a one-way latch. An event received with `starting_config`
true leaves it true; so in any run `starting_config` goes from false to true in
at most one callback, "Ready to Scan." is logged by exactly the callbacks in
which it does, hence at most once. -/
theorem gate_is_one_way_latch :
    (∀ (n : Node) (e : Event), n.starting_config = true →
      (step n e).node.starting_config = true) ∧
    (∀ (n : Node) (es : List Event), n.starting_config = true →
      (exec n es).starting_config = true) ∧
    (∀ (n : Node) (e : Event),
      (step n e).ready_logged = (!n.starting_config && (step n e).node.starting_config)) ∧
    (∀ (n : Node) (es : List Event), openings n es ≤ 1 ∧ ready_signals n es ≤ 1) := by
  refine ⟨step_gate_stays_open, ?_, fun n e => (step_gate n e).2, ?_⟩
  · intro n es
    induction es generalizing n with
    | nil => intro h; exact h
    | cons e es ih =>
      intro h
      have h1 := step_gate_stays_open n e h
      simp only [exec]
      split
      · exact h1
      · exact ih _ h1
  · intro n es
    have := openings_le_one es n
    rw [ready_signals_eq_openings]
    exact ⟨this, this⟩

/-- C3 at an open gate with the angle moved to 0.5 by the event: the gate is
still open afterwards; and in a run of a scan at angle 0, an angle update to
0.5, a second scan, an angle update to 0 and a third scan, "Ready to Scan." is
logged once. -/
theorem gate_is_one_way_latch_witness :
    (step { Node.init (1 / 4) double_0_127 0 with starting_config := true }
      (Event.motor (1 / 2))).node.starting_config = true ∧
    ready_signals (Node.init (1 / 4) double_0_127 0)
      [Event.laser_1 ⟨true, [], some ⟨0, 0⟩⟩, Event.motor (1 / 2),
        Event.laser_2 ⟨true, [], some ⟨0, 0⟩⟩, Event.motor 0,
        Event.laser_1 ⟨true, [], some ⟨0, 0⟩⟩] = 1 := by
  refine ⟨gate_is_one_way_latch.1 _ _ rfl, ?_⟩
  norm_num [ready_signals, run, step, laser_1_cb, laser_2_cb, motor_cb, crop_cloud_nil,
    Node.init]

/-- C4: a scan of device 1 or 2 that is processed (the wait succeeds and
`crop_cloud` returns `c`) with the gate closed and `|angle| >= 0.1` leaves the
gate closed and the cloud of the device as it was, whatever `c` holds, and
publishes that unchanged cloud. -/
theorem closed_gate_scan_merges_nothing (n : Node) (s : Scan) (c : List PointXYZ)
    (hw : s.wait_ok = true) (hg : n.starting_config = false) (ha : 1 / 10 ≤ |n.angle|) :
    (crop_cloud n s.projected 1 s.lookup = some c →
      (laser_1_cb n s).node.starting_config = false ∧
      (laser_1_cb n s).node.cloud1 = n.cloud1 ∧
      (laser_1_cb n s).published = some n.cloud1 ∧
      (laser_1_cb n s).thrown = false) ∧
    (crop_cloud n s.projected 2 s.lookup = some c →
      (laser_2_cb n s).node.starting_config = false ∧
      (laser_2_cb n s).node.cloud2 = n.cloud2 ∧
      (laser_2_cb n s).published = some n.cloud2 ∧
      (laser_2_cb n s).thrown = false) := by
  have hgate := gate_check_closed n hg ha
  constructor
  · intro hc
    rw [laser_1_cb_processed n s c hw hc]
    simp only [hgate, Bool.false_eq_true, if_false]
    exact ⟨trivial, trivial, trivial, trivial⟩
  · intro hc
    rw [laser_2_cb_processed n s c hw hc]
    simp only [hgate, Bool.false_eq_true, if_false]
    exact ⟨trivial, trivial, trivial, trivial⟩

/-- C4 at angle 0.5, `max_z = 0.25`, `max_radius = 0.127` and a device-1 scan
of the one point (0.05, 0.02, 0.1): the point passes the crop and is not
merged; the published cloud is the empty cloud the node started with. -/
theorem closed_gate_scan_merges_nothing_witness :
    crop_cloud (Node.init (1 / 4) double_0_127 (1 / 2)) [scenario_point] 1
        (some ⟨0, 0⟩) = some [scenario_point] ∧
      (laser_1_cb (Node.init (1 / 4) double_0_127 (1 / 2))
          ⟨true, [scenario_point], some ⟨0, 0⟩⟩).node.starting_config = false ∧
      (laser_1_cb (Node.init (1 / 4) double_0_127 (1 / 2))
          ⟨true, [scenario_point], some ⟨0, 0⟩⟩).node.cloud1 = [] ∧
      (laser_1_cb (Node.init (1 / 4) double_0_127 (1 / 2))
          ⟨true, [scenario_point], some ⟨0, 0⟩⟩).published = some [] ∧
      (laser_1_cb (Node.init (1 / 4) double_0_127 (1 / 2))
          ⟨true, [scenario_point], some ⟨0, 0⟩⟩).thrown = false := by
  have hc : crop_cloud (Node.init (1 / 4) double_0_127 (1 / 2)) [scenario_point] 1
      (some ⟨0, 0⟩) = some [scenario_point] :=
    crop_cloud_singleton_kept _ _ _ _
      (remove_point_scenario_point (Node.init (1 / 4) double_0_127 (1 / 2)) 1 rfl rfl)
  exact ⟨hc, (closed_gate_scan_merges_nothing (Node.init (1 / 4) double_0_127 (1 / 2))
    ⟨true, [scenario_point], some ⟨0, 0⟩⟩ [scenario_point] rfl rfl
    tenth_le_abs_half).1 hc⟩

/-- C5: a scan of device 1 or 2 that is processed (the wait succeeds and
`crop_cloud` returns `c`) with the gate open after the gate check (it was open,
or `|angle| < 0.1`) leaves the gate open and appends `c` to the cloud of the
device: nothing is removed or deduplicated, the size grows by the number of
accepted points, every accepted point is in the published cloud, and the
published cloud is the whole new cloud. -/
theorem open_gate_scan_appends_accepted (n : Node) (s : Scan) (c : List PointXYZ)
    (hw : s.wait_ok = true) (hopen : n.starting_config = true ∨ |n.angle| < 1 / 10) :
    (crop_cloud n s.projected 1 s.lookup = some c →
      (laser_1_cb n s).node.starting_config = true ∧
      (laser_1_cb n s).node.cloud1 = n.cloud1 ++ c ∧
      (laser_1_cb n s).node.cloud1.length = n.cloud1.length + c.length ∧
      (laser_1_cb n s).published = some (laser_1_cb n s).node.cloud1 ∧
      (∀ p ∈ c, p ∈ (laser_1_cb n s).node.cloud1)) ∧
    (crop_cloud n s.projected 2 s.lookup = some c →
      (laser_2_cb n s).node.starting_config = true ∧
      (laser_2_cb n s).node.cloud2 = n.cloud2 ++ c ∧
      (laser_2_cb n s).node.cloud2.length = n.cloud2.length + c.length ∧
      (laser_2_cb n s).published = some (laser_2_cb n s).node.cloud2 ∧
      (∀ p ∈ c, p ∈ (laser_2_cb n s).node.cloud2)) := by
  have hgate := gate_check_open n hopen
  constructor
  · intro hc
    rw [laser_1_cb_processed n s c hw hc]
    simp only [hgate, if_true]
    exact ⟨trivial, trivial, List.length_append _ _, trivial,
      fun p hp => List.mem_append.mpr (Or.inr hp)⟩
  · intro hc
    rw [laser_2_cb_processed n s c hw hc]
    simp only [hgate, if_true]
    exact ⟨trivial, trivial, List.length_append _ _, trivial,
      fun p hp => List.mem_append.mpr (Or.inr hp)⟩

/-- C5 at a closed gate with angle 0.05 and a device-2 scan of the points
(0.05, 0.02, 0.1) and (0.05, 0.02, 0.3): the gate opens in this cycle, the
first point is accepted and is the published cloud. -/
theorem open_gate_scan_appends_accepted_witness :
    crop_cloud (Node.init (1 / 4) double_0_127 (1 / 20))
        [scenario_point, high_point] 2 (some ⟨0, 0⟩) =
        some [scenario_point] ∧
      (laser_2_cb (Node.init (1 / 4) double_0_127 (1 / 20))
        ⟨true, [scenario_point, high_point],
          some ⟨0, 0⟩⟩).node.starting_config = true ∧
      (laser_2_cb (Node.init (1 / 4) double_0_127 (1 / 20))
        ⟨true, [scenario_point, high_point],
          some ⟨0, 0⟩⟩).node.cloud2 = [] ++ [scenario_point] := by
  have hc : crop_cloud (Node.init (1 / 4) double_0_127 (1 / 20))
      [scenario_point, high_point] 2 (some ⟨0, 0⟩) =
      some [scenario_point] :=
    crop_cloud_pair_first_kept _ _ _ _ _
      (remove_point_scenario_point (Node.init (1 / 4) double_0_127 (1 / 20)) 2 rfl rfl)
      (remove_point_high_point (Node.init (1 / 4) double_0_127 (1 / 20)) 2 ⟨0, 0⟩ rfl)
  have h := (open_gate_scan_appends_accepted (Node.init (1 / 4) double_0_127 (1 / 20))
    ⟨true, [scenario_point, high_point], some ⟨0, 0⟩⟩
    [scenario_point] rfl
    (Or.inr abs_twentieth_lt_tenth)).2 hc
  exact ⟨hc, h.1, h.2.1⟩

theorem step_clouds_grow (n : Node) (e : Event) :
    n.cloud1 <+: (step n e).node.cloud1 ∧ n.cloud2 <+: (step n e).node.cloud2 := by
  cases e with
  | motor a => exact ⟨List.prefix_refl _, List.prefix_refl _⟩
  | laser_1 s =>
    simp only [step]
    cases hw : s.wait_ok with
    | false =>
      rw [laser_1_cb_wait_failed n s hw]
      exact ⟨List.prefix_refl _, List.prefix_refl _⟩
    | true =>
      cases hc : crop_cloud n s.projected 1 s.lookup with
      | none =>
        rw [laser_1_cb_thrown n s hw hc]
        exact ⟨List.prefix_refl _, List.prefix_refl _⟩
      | some c =>
        rw [laser_1_cb_processed n s c hw hc]
        refine ⟨?_, List.prefix_refl _⟩
        simp only []
        split
        · exact List.prefix_append _ _
        · exact List.prefix_refl _
  | laser_2 s =>
    simp only [step]
    cases hw : s.wait_ok with
    | false =>
      rw [laser_2_cb_wait_failed n s hw]
      exact ⟨List.prefix_refl _, List.prefix_refl _⟩
    | true =>
      cases hc : crop_cloud n s.projected 2 s.lookup with
      | none =>
        rw [laser_2_cb_thrown n s hw hc]
        exact ⟨List.prefix_refl _, List.prefix_refl _⟩
      | some c =>
        rw [laser_2_cb_processed n s c hw hc]
        refine ⟨List.prefix_refl _, ?_⟩
        simp only []
        split
        · exact List.prefix_append _ _
        · exact List.prefix_refl _

theorem exec_clouds_grow (es : List Event) :
    ∀ n : Node, n.cloud1 <+: (exec n es).cloud1 ∧ n.cloud2 <+: (exec n es).cloud2 := by
  induction es with
  | nil => intro n; exact ⟨List.prefix_refl _, List.prefix_refl _⟩
  | cons e es ih =>
    intro n
    have hs := step_clouds_grow n e
    simp only [exec]
    split
    · exact hs
    · have h2 := ih (step n e).node
      exact ⟨hs.1.trans h2.1, hs.2.trans h2.2⟩

theorem exec_append_clouds_grow (es1 es2 : List Event) :
    ∀ n : Node, (exec n es1).cloud1 <+: (exec n (es1 ++ es2)).cloud1 ∧
      (exec n es1).cloud2 <+: (exec n (es1 ++ es2)).cloud2 := by
  induction es1 with
  | nil => intro n; exact exec_clouds_grow es2 n
  | cons e es ih =>
    intro n
    simp only [List.cons_append, exec]
    split
    · exact ⟨List.prefix_refl _, List.prefix_refl _⟩
    · exact ih _

/-- C6: monotonicity. Each event leaves the cloud of either device with its
former content as a prefix, so no point is removed; along a run the cloud after
any part of the run is a prefix of the cloud after a longer part, and the sizes
never decrease. -/
theorem point_sets_grow_monotonically :
    (∀ (n : Node) (e : Event),
      n.cloud1 <+: (step n e).node.cloud1 ∧ n.cloud2 <+: (step n e).node.cloud2) ∧
    (∀ (n : Node) (es1 es2 : List Event),
      ((exec n es1).cloud1 <+: (exec n (es1 ++ es2)).cloud1 ∧
        (exec n es1).cloud2 <+: (exec n (es1 ++ es2)).cloud2) ∧
      (exec n es1).cloud1.length ≤ (exec n (es1 ++ es2)).cloud1.length ∧
      (exec n es1).cloud2.length ≤ (exec n (es1 ++ es2)).cloud2.length) := by
  refine ⟨step_clouds_grow, fun n es1 es2 => ?_⟩
  have h := exec_append_clouds_grow es1 es2 n
  exact ⟨h, h.1.length_le, h.2.length_le⟩

/-- C7: when `waitForTransform` reports failure, `laser_1_cb` and `laser_2_cb`
return with nothing published, nothing logged and every member of the node as
it was, whatever the scan holds and whatever the angle is. -/
theorem wait_timeout_discards_scan (n : Node) (s : Scan) (hw : s.wait_ok = false) :
    laser_1_cb n s =
        { node := n, published := none, ready_logged := false, thrown := false } ∧
      laser_2_cb n s =
        { node := n, published := none, ready_logged := false, thrown := false } :=
  ⟨laser_1_cb_wait_failed n s hw, laser_2_cb_wait_failed n s hw⟩

/-- C7 at a closed gate with angle 0 and a scan holding an acceptable point:
the gate is not opened and nothing is published. -/
theorem wait_timeout_discards_scan_witness :
    (laser_1_cb (Node.init (1 / 4) double_0_127 0)
        ⟨false, [scenario_point], some ⟨0, 0⟩⟩).node.starting_config = false ∧
      (laser_1_cb (Node.init (1 / 4) double_0_127 0)
        ⟨false, [scenario_point], some ⟨0, 0⟩⟩).published = none := by
  have h := (wait_timeout_discards_scan (Node.init (1 / 4) double_0_127 0)
    ⟨false, [scenario_point], some ⟨0, 0⟩⟩ rfl).1
  rw [h]
  exact ⟨rfl, rfl⟩

/-- C8: after a processed scan of device 1 or 2 (the wait succeeds and
`crop_cloud` returns) the gate is open exactly when it was open before or
`|angle| < 0.1`. The comparison is strict: from a closed gate, angle 0.1 and
angle -0.1 leave it closed; angle 0.05 opens it. -/
theorem gate_after_processed_scan (n : Node) (s : Scan) (c : List PointXYZ)
    (hw : s.wait_ok = true) :
    (crop_cloud n s.projected 1 s.lookup = some c →
      ((laser_1_cb n s).node.starting_config = true ↔
        (n.starting_config = true ∨ |n.angle| < 1 / 10)) ∧
      (n.starting_config = false → (n.angle = 1 / 10 ∨ n.angle = -(1 / 10)) →
        (laser_1_cb n s).node.starting_config = false) ∧
      (n.angle = 1 / 20 → (laser_1_cb n s).node.starting_config = true)) ∧
    (crop_cloud n s.projected 2 s.lookup = some c →
      ((laser_2_cb n s).node.starting_config = true ↔
        (n.starting_config = true ∨ |n.angle| < 1 / 10)) ∧
      (n.starting_config = false → (n.angle = 1 / 10 ∨ n.angle = -(1 / 10)) →
        (laser_2_cb n s).node.starting_config = false) ∧
      (n.angle = 1 / 20 → (laser_2_cb n s).node.starting_config = true)) := by
  have hiff : (n.starting_config || decide (|n.angle| < 1 / 10)) = true ↔
      (n.starting_config = true ∨ |n.angle| < 1 / 10) := by
    simp only [Bool.or_eq_true, decide_eq_true_eq]
  have hedge : n.starting_config = false → (n.angle = 1 / 10 ∨ n.angle = -(1 / 10)) →
      (n.starting_config || decide (|n.angle| < 1 / 10)) = false := by
    intro hg ha
    apply gate_check_closed n hg
    rcases ha with ha | ha <;> rw [ha] <;> norm_num [abs_of_pos]
  have hin : n.angle = 1 / 20 →
      (n.starting_config || decide (|n.angle| < 1 / 10)) = true := by
    intro ha
    apply gate_check_open n
    right
    rw [ha]
    norm_num [abs_of_pos]
  constructor
  · intro hc
    rw [laser_1_cb_processed n s c hw hc]
    exact ⟨hiff, hedge, hin⟩
  · intro hc
    rw [laser_2_cb_processed n s c hw hc]
    exact ⟨hiff, hedge, hin⟩

/-- C8 at a closed gate and a device-1 scan with an empty batch: with angle
0.1 the gate stays closed, with angle 0.05 it opens. -/
theorem gate_after_processed_scan_witness :
    (laser_1_cb (Node.init (1 / 4) double_0_127 (1 / 10))
        ⟨true, [], some ⟨0, 0⟩⟩).node.starting_config = false ∧
      (laser_1_cb (Node.init (1 / 4) double_0_127 (1 / 20))
        ⟨true, [], some ⟨0, 0⟩⟩).node.starting_config = true :=
  ⟨((gate_after_processed_scan (Node.init (1 / 4) double_0_127 (1 / 10))
      ⟨true, [], some ⟨0, 0⟩⟩ [] rfl).1 (crop_cloud_nil _ _ _)).2.1 rfl (Or.inl rfl),
    ((gate_after_processed_scan (Node.init (1 / 4) double_0_127 (1 / 20))
      ⟨true, [], some ⟨0, 0⟩⟩ [] rfl).1 (crop_cloud_nil _ _ _)).2.2 rfl⟩

/-- C9, as stated, fails on the code. With the wait succeeding and
`lookupTransform` unable to resolve the transform, a device-1 scan with an
empty batch received at a closed gate and angle 0 is processed as a normal
cycle (no lookup is made): the gate opens, "Ready to Scan." is logged and the
cloud is published; and a scan with a one-point batch ends in the exception
leaving the callback. -/
theorem lookup_failure_not_handled_as_timeout :
    laser_1_cb (Node.init (1 / 4) double_0_127 0) ⟨true, [], none⟩ =
        { node := { Node.init (1 / 4) double_0_127 0 with starting_config := true }
          published := some []
          ready_logged := true
          thrown := false } ∧
      laser_1_cb (Node.init (1 / 4) double_0_127 0) ⟨true, [origin_point], none⟩ =
        { node := Node.init (1 / 4) double_0_127 0
          published := none
          ready_logged := false
          thrown := true } := by
  constructor
  · rw [laser_1_cb_processed _ _ [] rfl (crop_cloud_nil _ _ _)]
    norm_num [Node.init]
  · exact laser_1_cb_thrown _ _ rfl (crop_cloud_throw _ _ _ _)

/-- C9 as amended: when the wait succeeds and `lookupTransform` cannot resolve
the transform, a scan of either device with a non-empty batch mutates no member
of the node, logs nothing and publishes nothing; a scan with an empty batch
makes no lookup and is processed as a normal cycle with no accepted point: the
gate check is made and the unchanged cloud of the device is published. -/
theorem lookup_failure_during_crop (n : Node) (s : Scan) (hw : s.wait_ok = true)
    (hl : s.lookup = none) :
    (s.projected ≠ [] →
      ((laser_1_cb n s).node = n ∧ (laser_1_cb n s).published = none ∧
        (laser_1_cb n s).ready_logged = false) ∧
      ((laser_2_cb n s).node = n ∧ (laser_2_cb n s).published = none ∧
        (laser_2_cb n s).ready_logged = false)) ∧
    (s.projected = [] →
      laser_1_cb n s =
        { node :=
            { n with starting_config := n.starting_config || decide (|n.angle| < 1 / 10) }
          published := some n.cloud1
          ready_logged := !n.starting_config && decide (|n.angle| < 1 / 10)
          thrown := false } ∧
      laser_2_cb n s =
        { node :=
            { n with starting_config := n.starting_config || decide (|n.angle| < 1 / 10) }
          published := some n.cloud2
          ready_logged := !n.starting_config && decide (|n.angle| < 1 / 10)
          thrown := false }) := by
  constructor
  · intro hne
    obtain ⟨p, l, hpl⟩ := List.exists_cons_of_ne_nil hne
    have h1 : crop_cloud n s.projected 1 s.lookup = none := by
      rw [hpl, hl]; exact crop_cloud_throw _ _ _ _
    have h2 : crop_cloud n s.projected 2 s.lookup = none := by
      rw [hpl, hl]; exact crop_cloud_throw _ _ _ _
    rw [laser_1_cb_thrown n s hw h1, laser_2_cb_thrown n s hw h2]
    exact ⟨⟨rfl, rfl, rfl⟩, ⟨rfl, rfl, rfl⟩⟩
  · intro hnil
    have h1 : crop_cloud n s.projected 1 s.lookup = some [] := by
      rw [hnil]; exact crop_cloud_nil _ _ _
    have h2 : crop_cloud n s.projected 2 s.lookup = some [] := by
      rw [hnil]; exact crop_cloud_nil _ _ _
    rw [laser_1_cb_processed n s [] hw h1, laser_2_cb_processed n s [] hw h2]
    simp only [List.append_nil, ite_self]
    exact ⟨trivial, trivial⟩

/-- C9 as amended, at a closed gate with angle 0 and a device-2 scan of one
point: the gate stays closed and nothing is published. -/
theorem lookup_failure_during_crop_witness :
    (laser_2_cb (Node.init (1 / 4) double_0_127 0) ⟨true, [origin_point], none⟩).node =
        Node.init (1 / 4) double_0_127 0 ∧
      (laser_2_cb (Node.init (1 / 4) double_0_127 0) ⟨true, [origin_point], none⟩).published =
        none :=
  ⟨((lookup_failure_during_crop (Node.init (1 / 4) double_0_127 0)
      ⟨true, [origin_point], none⟩ rfl rfl).1 (List.cons_ne_nil _ _)).2.1,
    ((lookup_failure_during_crop (Node.init (1 / 4) double_0_127 0)
      ⟨true, [origin_point], none⟩ rfl rfl).1 (List.cons_ne_nil _ _)).2.2.1⟩

/-- C10: the crop filter is idempotent. For every laser id, node bounds,
resolved transform and batch, `crop_cloud` returns a batch `c`, `crop_cloud`
applied to `c` with the same arguments returns `c` again, and every point of
`c` gets the decision "keep" again. -/
theorem crop_cloud_idempotent (n : Node) (laser : Int) (t : StampedTransform)
    (pcl_cloud : List PointXYZ) :
    ∃ c, crop_cloud n pcl_cloud laser (some t) = some c ∧
      crop_cloud n c laser (some t) = some c ∧
      ∀ p ∈ c, remove_point n laser t p = false := by
  refine ⟨pcl_cloud.filter (fun p => !remove_point n laser t p), crop_cloud_filter _ _ _ _,
    ?_, ?_⟩
  · rw [crop_cloud_filter, List.filter_filter]
    simp
  · intro p hp
    have := (List.mem_filter.mp hp).2
    simpa using this

theorem crop_lookups_some (n : Node) (laser : Int) (t : StampedTransform)
    (pcl_cloud : List PointXYZ) (i : Nat) :
    crop_lookups n laser (some t) pcl_cloud i = pcl_cloud.length - i := by
  induction pcl_cloud, i using crop_loop.induct n laser (some t) with
  | case1 l i h hl => cases hl
  | case2 l i h t1 ht hrem ih =>
    cases ht
    rw [crop_lookups, dif_pos h]
    simp only []
    rw [if_pos hrem, ih, List.length_eraseIdx, if_pos h]
    omega
  | case3 l i h t1 ht hrem ih =>
    cases ht
    rw [crop_lookups, dif_pos h]
    simp only []
    rw [if_neg hrem, ih]
    omega
  | case4 l i h =>
    rw [crop_lookups, dif_neg h]
    omega

/-- C11, as stated, fails on the code. With `max_radius = 0.5`, laser id 2 and
a lookup that succeeds, `crop_cloud` keeps the point (0.5, 2^-40, 0): in
double, `0.25 + 2^-80` rounds to 0.25, whose square root 0.5 is not greater
than `max_radius`. Taken as exact reals its radius is above 0.5, so the filter
by the bounds of the spec drops the point. -/
theorem rounded_radius_point_is_kept_by_device_2 :
    crop_cloud (Node.init (1 / 4) (1 / 2) 0) [rounding_point] 2 (some ⟨0, 0⟩) =
        some [rounding_point] ∧
      ¬ spec_within_bounds (1 / 4) (1 / 2) rounding_point ∧
      [rounding_point].filter (fun p =>
        @decide (spec_within_bounds (1 / 4) (1 / 2) p) (Classical.propDecidable _)) = [] := by
  have hz : (0 : ℚ) ≤ (Node.init (1 / 4) (1 / 2) 0).max_z := by
    show (0 : ℚ) ≤ 1 / 4
    norm_num
  have hrem := remove_point_rounding_point (Node.init (1 / 4) (1 / 2) 0) 2 ⟨0, 0⟩
    (by decide) hz rfl
  refine ⟨crop_cloud_singleton_kept _ _ _ _ hrem, rounding_point_outside_bounds, ?_⟩
  rw [List.filter_cons,
    @decide_eq_false _ (Classical.propDecidable _) rounding_point_outside_bounds]
  rfl

/-- C11 as amended: for a laser id other than 1 and a lookup that succeeds,
`crop_cloud` leaves the batch filtered, order kept, by the height and radius
tests alone, as the program evaluates them in double (a point is kept exactly
when its `z` is NaN or a number with `0 <= z <= max_z` and its computed radius
is not greater than `max_radius`); the result is the same for any two resolved
transforms; and the transform is still looked up once for every point of the
batch, so a lookup that throws ends the crop of a non-empty batch. -/
theorem crop_cloud_other_device_computed (n : Node) (laser : Int) (hl : laser ≠ 1)
    (pcl_cloud : List PointXYZ) (t t' : StampedTransform) :
    crop_cloud n pcl_cloud laser (some t) =
        some (pcl_cloud.filter (fun p => passes_height_radius n.max_z n.max_radius p)) ∧
      (∀ p, passes_height_radius n.max_z n.max_radius p = true →
        (p.z = .nan ∨ ∃ z : ℚ, p.z = .fin z ∧ 0 ≤ z ∧ z ≤ n.max_z) ∧
          fp_gt (computed_radius p) (.fin n.max_radius) = false) ∧
      crop_cloud n pcl_cloud laser (some t') = crop_cloud n pcl_cloud laser (some t) ∧
      crop_lookups n laser (some t) pcl_cloud 0 = pcl_cloud.length ∧
      (pcl_cloud ≠ [] → crop_cloud n pcl_cloud laser none = none) := by
  have hfilter : ∀ u : StampedTransform, crop_cloud n pcl_cloud laser (some u) =
      some (pcl_cloud.filter (fun p => passes_height_radius n.max_z n.max_radius p)) := by
    intro u
    rw [crop_cloud_filter]
    congr 1
    apply List.filter_congr
    intro p _
    rw [remove_point_eq_not_passes]
    simp [hl]
  refine ⟨hfilter t, fun p hp => passes_height_radius_height _ _ p hp,
    by rw [hfilter t, hfilter t'], ?_, ?_⟩
  · rw [crop_lookups_some]
    rfl
  · intro hne
    obtain ⟨p, l, hpl⟩ := List.exists_cons_of_ne_nil hne
    rw [hpl]
    exact crop_cloud_throw _ _ _ _

theorem round_double_one : round_double 1 = .fin 1 := by
  rw [round_double_of_pos _ 0 (2 ^ 52) (by norm_num) (by norm_num) (by norm_num)
    (by norm_num) (by norm_num) (by norm_num)]
  norm_num

theorem sqrt_double_one : sqrt_double 1 = 1 := by
  rw [sqrt_double_eq _ 0 (2 ^ 52) (by norm_num) (by norm_num) (by norm_num)
    (by norm_num) (by norm_num)]
  norm_num

theorem computed_distance_far_origin :
    computed_distance ⟨1, 0⟩ origin_point = .fin 1 := by
  unfold computed_distance origin_point
  rw [fp_sub_fin, fp_sub_fin, sub_zero, sub_zero, round_double_one, round_double_zero,
    fp_pow2_fin, fp_pow2_fin, mul_one, mul_zero, round_double_one, round_double_zero,
    fp_add_fin, add_zero, round_double_one, fp_sqrt_fin_pos _ one_pos, sqrt_double_one]

theorem passes_height_radius_origin_point (mz mr : ℚ) (hz : 0 ≤ mz) (hr : 0 ≤ mr) :
    passes_height_radius mz mr origin_point = true := by
  have hpz : origin_point.z = .fin 0 := rfl
  have h1 : decide ((0 : ℚ) < 0) = false := decide_eq_false (lt_irrefl 0)
  have h2 : decide (mz < 0) = false := decide_eq_false (not_lt.mpr hz)
  have h3 : decide (mr < 0) = false := decide_eq_false (not_lt.mpr hr)
  unfold passes_height_radius
  rw [computed_radius_origin_point, hpz, fp_lt_fin, fp_gt_fin, fp_gt_fin, h1, h2, h3]
  rfl

theorem remove_point_far_origin (n : Node) :
    remove_point n 1 ⟨1, 0⟩ origin_point = true := by
  have h4 : decide ((1 : ℚ) / 4 < 1) = true := decide_eq_true (by norm_num)
  rw [remove_point_eq, computed_distance_far_origin, fp_gt_fin, h4]
  simp

/-- C11 as amended, at laser id 2 and the point (0, 0, 0) with the origin of
the transform at (1, 0): device 1 removes the point for its distance 1 to the
origin of the transform, device 2 keeps it, as with the origin at (0, 0), after
one lookup. -/
theorem crop_cloud_other_device_computed_witness :
    crop_cloud (Node.init (1 / 4) double_0_127 0) [origin_point] 1 (some ⟨1, 0⟩) =
        some [] ∧
      crop_cloud (Node.init (1 / 4) double_0_127 0) [origin_point] 2 (some ⟨1, 0⟩) =
        some ([origin_point].filter (fun p =>
          passes_height_radius (1 / 4) double_0_127 p)) ∧
      passes_height_radius (1 / 4) double_0_127 origin_point = true ∧
      crop_cloud (Node.init (1 / 4) double_0_127 0) [origin_point] 2 (some ⟨0, 0⟩) =
        crop_cloud (Node.init (1 / 4) double_0_127 0) [origin_point] 2 (some ⟨1, 0⟩) ∧
      crop_lookups (Node.init (1 / 4) double_0_127 0) 2 (some ⟨1, 0⟩) [origin_point] 0
        = 1 := by
  have h := crop_cloud_other_device_computed (Node.init (1 / 4) double_0_127 0) 2
    (by decide) [origin_point] ⟨1, 0⟩ ⟨0, 0⟩
  have hpass : passes_height_radius (1 / 4) double_0_127 origin_point = true :=
    passes_height_radius_origin_point _ _ (by norm_num) (by norm_num [double_0_127])
  exact ⟨crop_cloud_singleton_removed _ _ _ _ (remove_point_far_origin _), h.1, hpass,
    h.2.2.1, h.2.2.2.1⟩

theorem step_closed_empty (n : Node) (e : Event)
    (h : n.starting_config = false → n.cloud1 = [] ∧ n.cloud2 = []) :
    (step n e).node.starting_config = false →
      ((step n e).node.cloud1 = [] ∧ (step n e).node.cloud2 = []) ∧
      ∀ c, (step n e).published = some c → c = [] := by
  cases e with
  | motor a =>
    intro hg
    exact ⟨h hg, by simp [step, motor_cb]⟩
  | laser_1 s =>
    simp only [step]
    cases hw : s.wait_ok with
    | false =>
      rw [laser_1_cb_wait_failed n s hw]
      intro hg
      exact ⟨h hg, by simp⟩
    | true =>
      cases hc : crop_cloud n s.projected 1 s.lookup with
      | none =>
        rw [laser_1_cb_thrown n s hw hc]
        intro hg
        exact ⟨h hg, by simp⟩
      | some c =>
        rw [laser_1_cb_processed n s c hw hc]
        intro hg
        have hg1 : (n.starting_config || decide (|n.angle| < 1 / 10)) = false := hg
        have hg0 : n.starting_config = false := by
          cases hs : n.starting_config
          · rfl
          · rw [hs, Bool.true_or] at hg1
            cases hg1
        simp only [hg1, Bool.false_eq_true, if_false]
        refine ⟨h hg0, ?_⟩
        intro c1 hc1
        simp only [Option.some.injEq] at hc1
        rw [← hc1]
        exact (h hg0).1
  | laser_2 s =>
    simp only [step]
    cases hw : s.wait_ok with
    | false =>
      rw [laser_2_cb_wait_failed n s hw]
      intro hg
      exact ⟨h hg, by simp⟩
    | true =>
      cases hc : crop_cloud n s.projected 2 s.lookup with
      | none =>
        rw [laser_2_cb_thrown n s hw hc]
        intro hg
        exact ⟨h hg, by simp⟩
      | some c =>
        rw [laser_2_cb_processed n s c hw hc]
        intro hg
        have hg1 : (n.starting_config || decide (|n.angle| < 1 / 10)) = false := hg
        have hg0 : n.starting_config = false := by
          cases hs : n.starting_config
          · rfl
          · rw [hs, Bool.true_or] at hg1
            cases hg1
        simp only [hg1, Bool.false_eq_true, if_false]
        refine ⟨h hg0, ?_⟩
        intro c1 hc1
        simp only [Option.some.injEq] at hc1
        rw [← hc1]
        exact (h hg0).2

theorem exec_closed_empty (es : List Event) :
    ∀ n : Node, (n.starting_config = false → n.cloud1 = [] ∧ n.cloud2 = []) →
      (exec n es).starting_config = false →
        (exec n es).cloud1 = [] ∧ (exec n es).cloud2 = [] := by
  induction es with
  | nil => intro n h; exact h
  | cons e es ih =>
    intro n h
    have hs : (step n e).node.starting_config = false →
        (step n e).node.cloud1 = [] ∧ (step n e).node.cloud2 = [] :=
      fun hg => (step_closed_empty n e h hg).1
    simp only [exec]
    split
    · exact hs
    · exact ih _ hs

theorem run_closed_empty (es : List Event) :
    ∀ n : Node, (n.starting_config = false → n.cloud1 = [] ∧ n.cloud2 = []) →
      ∀ o ∈ run n es, o.node.starting_config = false →
        ∀ c, o.published = some c → c = [] := by
  induction es with
  | nil => intro n _ o ho; cases ho
  | cons e es ih =>
    intro n h o ho
    simp only [run, List.mem_cons] at ho
    rcases ho with ho | ho
    · subst ho
      exact fun hg => (step_closed_empty n e h hg).2
    · split at ho
      · cases ho
      · exact ih _ (fun hg => (step_closed_empty n e h hg).1) o ho

/-- C12: in every state reached from the initial state by a finite sequence of
events, a closed gate means both clouds are empty; and every cloud published by
a callback that ends with the gate still closed is empty. -/
theorem closed_gate_clouds_empty (max_z max_radius angle : ℚ) (es : List Event) :
    ((exec (Node.init max_z max_radius angle) es).starting_config = false →
      (exec (Node.init max_z max_radius angle) es).cloud1 = [] ∧
      (exec (Node.init max_z max_radius angle) es).cloud2 = []) ∧
    (∀ o ∈ run (Node.init max_z max_radius angle) es, o.node.starting_config = false →
      ∀ c, o.published = some c → c = []) :=
  ⟨exec_closed_empty es _ (fun _ => ⟨rfl, rfl⟩),
    run_closed_empty es _ (fun _ => ⟨rfl, rfl⟩)⟩

/-- C12 at a run with angle 0.5 all along and a scan of each device holding an
acceptable point: the gate is closed at the end and both clouds are empty. -/
theorem closed_gate_clouds_empty_witness :
    (exec (Node.init (1 / 4) double_0_127 (1 / 2))
        [Event.laser_1 ⟨true, [scenario_point], some ⟨0, 0⟩⟩,
          Event.laser_2 ⟨true, [scenario_point], some ⟨0, 0⟩⟩]).starting_config
        = false ∧
      (exec (Node.init (1 / 4) double_0_127 (1 / 2))
        [Event.laser_1 ⟨true, [scenario_point], some ⟨0, 0⟩⟩,
          Event.laser_2 ⟨true, [scenario_point], some ⟨0, 0⟩⟩]).cloud1 = [] ∧
      (exec (Node.init (1 / 4) double_0_127 (1 / 2))
        [Event.laser_1 ⟨true, [scenario_point], some ⟨0, 0⟩⟩,
          Event.laser_2 ⟨true, [scenario_point], some ⟨0, 0⟩⟩]).cloud2 = [] := by
  have hg : (exec (Node.init (1 / 4) double_0_127 (1 / 2))
      [Event.laser_1 ⟨true, [scenario_point], some ⟨0, 0⟩⟩,
        Event.laser_2 ⟨true, [scenario_point], some ⟨0, 0⟩⟩]).starting_config
      = false := by
    have hc1 : crop_cloud (Node.init (1 / 4) double_0_127 (1 / 2)) [scenario_point] 1
        (some ⟨0, 0⟩) = some [scenario_point] :=
      crop_cloud_singleton_kept _ _ _ _
        (remove_point_scenario_point (Node.init (1 / 4) double_0_127 (1 / 2)) 1 rfl rfl)
    have hc2 : crop_cloud (Node.init (1 / 4) double_0_127 (1 / 2)) [scenario_point] 2
        (some ⟨0, 0⟩) = some [scenario_point] :=
      crop_cloud_singleton_kept _ _ _ _
        (remove_point_scenario_point (Node.init (1 / 4) double_0_127 (1 / 2)) 2 rfl rfl)
    have hgate := gate_check_closed (Node.init (1 / 4) double_0_127 (1 / 2)) rfl
      tenth_le_abs_half
    have hd : decide (|(Node.init (1 / 4) double_0_127 (1 / 2)).angle| < 1 / 10) = false :=
      decide_eq_false (not_lt.mpr tenth_le_abs_half)
    have e1 : laser_1_cb (Node.init (1 / 4) double_0_127 (1 / 2))
        ⟨true, [scenario_point], some ⟨0, 0⟩⟩ =
        { node := Node.init (1 / 4) double_0_127 (1 / 2), published := some [],
          ready_logged := false, thrown := false } := by
      rw [laser_1_cb_processed _ _ _ rfl hc1]
      simp only [hgate, hd, Bool.and_false, Bool.false_eq_true, if_false]
      rfl
    have e2 : laser_2_cb (Node.init (1 / 4) double_0_127 (1 / 2))
        ⟨true, [scenario_point], some ⟨0, 0⟩⟩ =
        { node := Node.init (1 / 4) double_0_127 (1 / 2), published := some [],
          ready_logged := false, thrown := false } := by
      rw [laser_2_cb_processed _ _ _ rfl hc2]
      simp only [hgate, hd, Bool.and_false, Bool.false_eq_true, if_false]
      rfl
    rw [exec]
    simp only [step, e1, Bool.false_eq_true, if_false]
    rw [exec_singleton]
    simp only [step, e2]
    rfl
  exact ⟨hg, (closed_gate_clouds_empty (1 / 4) double_0_127 (1 / 2) _).1 hg⟩

theorem laser_1_cb_frame (n : Node) (s : Scan) :
    (laser_1_cb n s).node =
      { n with
        cloud1 := (laser_1_cb n s).node.cloud1
        starting_config := (laser_1_cb n s).node.starting_config } := by
  cases hw : s.wait_ok with
  | false => rw [laser_1_cb_wait_failed n s hw]
  | true =>
    cases hc : crop_cloud n s.projected 1 s.lookup with
    | none => rw [laser_1_cb_thrown n s hw hc]
    | some c => rw [laser_1_cb_processed n s c hw hc]

theorem laser_2_cb_frame (n : Node) (s : Scan) :
    (laser_2_cb n s).node =
      { n with
        cloud2 := (laser_2_cb n s).node.cloud2
        starting_config := (laser_2_cb n s).node.starting_config } := by
  cases hw : s.wait_ok with
  | false => rw [laser_2_cb_wait_failed n s hw]
  | true =>
    cases hc : crop_cloud n s.projected 2 s.lookup with
    | none => rw [laser_2_cb_thrown n s hw hc]
    | some c => rw [laser_2_cb_processed n s c hw hc]

theorem scan_keeps_gate_closed (n : Node) (e : Event) (hg : n.starting_config = false)
    (ha : 1 / 10 ≤ |n.angle|) (he : ∀ a, e ≠ Event.motor a) :
    (step n e).node.starting_config = false := by
  have hgate := gate_check_closed n hg ha
  cases e with
  | motor a => exact absurd rfl (he a)
  | laser_1 s =>
    simp only [step]
    cases hw : s.wait_ok with
    | false => rw [laser_1_cb_wait_failed n s hw]; exact hg
    | true =>
      cases hc : crop_cloud n s.projected 1 s.lookup with
      | none => rw [laser_1_cb_thrown n s hw hc]; exact hg
      | some c => rw [laser_1_cb_processed n s c hw hc]; exact hgate
  | laser_2 s =>
    simp only [step]
    cases hw : s.wait_ok with
    | false => rw [laser_2_cb_wait_failed n s hw]; exact hg
    | true =>
      cases hc : crop_cloud n s.projected 2 s.lookup with
      | none => rw [laser_2_cb_thrown n s hw hc]; exact hg
      | some c => rw [laser_2_cb_processed n s c hw hc]; exact hgate

/-- C13: `motor_cb` overwrites the angle with the reported value and does
nothing else: the gate, both clouds and the bounds are as before, nothing is
published or logged; a second update overwrites the first. So from a closed
gate, the updates 0.0 then 0.5 followed by a scan of either device leave the
gate closed, whatever the scan holds. -/
theorem motor_cb_last_writer_wins :
    (∀ (n : Node) (a : ℚ),
      motor_cb n a =
        { node := { n with angle := a }, published := none, ready_logged := false,
          thrown := false } ∧
      (motor_cb n a).node.angle = a ∧
      (motor_cb n a).node.starting_config = n.starting_config ∧
      (motor_cb n a).node.cloud1 = n.cloud1 ∧
      (motor_cb n a).node.cloud2 = n.cloud2) ∧
    (∀ (n : Node) (a b : ℚ), (motor_cb (motor_cb n a).node b).node = (motor_cb n b).node) ∧
    (∀ (n : Node) (s : Scan), n.starting_config = false →
      (exec n [Event.motor 0, Event.motor (1 / 2), Event.laser_1 s]).starting_config = false ∧
      (exec n [Event.motor 0, Event.motor (1 / 2), Event.laser_2 s]).starting_config
        = false) := by
  refine ⟨fun n a => ⟨rfl, rfl, rfl, rfl, rfl⟩, fun n a b => rfl, ?_⟩
  intro n s hg
  have ha : (1 : ℚ) / 10 ≤ |(1 : ℚ) / 2| := by norm_num [abs_of_pos]
  have h1 := scan_keeps_gate_closed
    { n with angle := 1 / 2 } (Event.laser_1 s) hg ha (fun a h => by cases h)
  have h2 := scan_keeps_gate_closed
    { n with angle := 1 / 2 } (Event.laser_2 s) hg ha (fun a h => by cases h)
  constructor
  · simp only [exec, step, motor_cb, Bool.false_eq_true, if_false]
    split
    · exact h1
    · exact h1
  · simp only [exec, step, motor_cb, Bool.false_eq_true, if_false]
    split
    · exact h2
    · exact h2

/-- C13 at the initial state with angle 0.3: after the updates 0.0 then 0.5
and a device-1 scan of an acceptable point the gate is closed. -/
theorem motor_cb_last_writer_wins_witness :
    (exec (Node.init (1 / 4) double_0_127 (3 / 10))
      [Event.motor 0, Event.motor (1 / 2),
        Event.laser_1 ⟨true, [scenario_point], some ⟨0, 0⟩⟩]).starting_config
      = false :=
  (motor_cb_last_writer_wins.2.2 (Node.init (1 / 4) double_0_127 (3 / 10))
    ⟨true, [scenario_point], some ⟨0, 0⟩⟩ rfl).1

/-- C14: per-device ownership. `laser_1_cb` leaves `cloud2` and the angle as
they were and `laser_2_cb` leaves `cloud1` and the angle as they were, for
every node and scan; the node after a scan callback of device `d` differs from
the node before it in `cloud_d` and `starting_config` at most. -/
theorem scan_callback_owns_its_cloud (n : Node) (s : Scan) :
    ((laser_1_cb n s).node.cloud2 = n.cloud2 ∧ (laser_1_cb n s).node.angle = n.angle ∧
      (laser_1_cb n s).node =
        { n with
          cloud1 := (laser_1_cb n s).node.cloud1
          starting_config := (laser_1_cb n s).node.starting_config }) ∧
    ((laser_2_cb n s).node.cloud1 = n.cloud1 ∧ (laser_2_cb n s).node.angle = n.angle ∧
      (laser_2_cb n s).node =
        { n with
          cloud2 := (laser_2_cb n s).node.cloud2
          starting_config := (laser_2_cb n s).node.starting_config }) := by
  have h1 := laser_1_cb_frame n s
  have h2 := laser_2_cb_frame n s
  refine ⟨⟨?_, ?_, h1⟩, ⟨?_, ?_, h2⟩⟩
  · rw [h1]
  · rw [h1]
  · rw [h2]
  · rw [h2]

theorem exec_gate_stays_open (es : List Event) :
    ∀ n : Node, n.starting_config = true → (exec n es).starting_config = true := by
  induction es with
  | nil => intro n h; exact h
  | cons e es ih =>
    intro n h
    have h1 := step_gate_stays_open n e h
    simp only [exec]
    split
    · exact h1
    · exact ih _ h1

/-- C15: the gate is shared by both callbacks. When a processed scan of one
device finds the gate closed and `|angle| < 0.1`, it opens the gate; after any
further events, angle updates to values with `|angle| >= 0.1` included, a
processed scan of the other device appends its accepted points to the cloud of
that other device. -/
theorem gate_shared_between_devices (n : Node) (s1 s2 : Scan) (c1 c2 : List PointXYZ)
    (es : List Event) (hg : n.starting_config = false) (ha : |n.angle| < 1 / 10)
    (hw1 : s1.wait_ok = true) (hw2 : s2.wait_ok = true) :
    (crop_cloud n s1.projected 1 s1.lookup = some c1 →
      (laser_1_cb n s1).node.starting_config = true ∧
      (laser_1_cb n s1).ready_logged = true ∧
      (crop_cloud (exec (laser_1_cb n s1).node es) s2.projected 2 s2.lookup = some c2 →
        (laser_2_cb (exec (laser_1_cb n s1).node es) s2).node.cloud2 =
          (exec (laser_1_cb n s1).node es).cloud2 ++ c2 ∧
        (laser_2_cb (exec (laser_1_cb n s1).node es) s2).published =
          some ((exec (laser_1_cb n s1).node es).cloud2 ++ c2))) ∧
    (crop_cloud n s1.projected 2 s1.lookup = some c1 →
      (laser_2_cb n s1).node.starting_config = true ∧
      (laser_2_cb n s1).ready_logged = true ∧
      (crop_cloud (exec (laser_2_cb n s1).node es) s2.projected 1 s2.lookup = some c2 →
        (laser_1_cb (exec (laser_2_cb n s1).node es) s2).node.cloud1 =
          (exec (laser_2_cb n s1).node es).cloud1 ++ c2 ∧
        (laser_1_cb (exec (laser_2_cb n s1).node es) s2).published =
          some ((exec (laser_2_cb n s1).node es).cloud1 ++ c2))) := by
  have hgate := gate_check_open n (Or.inr ha)
  have hready : (!n.starting_config && decide (|n.angle| < 1 / 10)) = true := by
    rw [hg, decide_eq_true ha]
    rfl
  constructor
  · intro hc1
    have hopen : (laser_1_cb n s1).node.starting_config = true := by
      rw [laser_1_cb_processed n s1 c1 hw1 hc1]
      exact hgate
    have hlog : (laser_1_cb n s1).ready_logged = true := by
      rw [laser_1_cb_processed n s1 c1 hw1 hc1]
      exact hready
    refine ⟨hopen, hlog, ?_⟩
    intro hc2
    have hlater := exec_gate_stays_open es _ hopen
    rw [laser_2_cb_processed _ s2 c2 hw2 hc2]
    simp only [hlater, Bool.true_or, if_true]
    exact ⟨trivial, trivial⟩
  · intro hc1
    have hopen : (laser_2_cb n s1).node.starting_config = true := by
      rw [laser_2_cb_processed n s1 c1 hw1 hc1]
      exact hgate
    have hlog : (laser_2_cb n s1).ready_logged = true := by
      rw [laser_2_cb_processed n s1 c1 hw1 hc1]
      exact hready
    refine ⟨hopen, hlog, ?_⟩
    intro hc2
    have hlater := exec_gate_stays_open es _ hopen
    rw [laser_1_cb_processed _ s2 c2 hw2 hc2]
    simp only [hlater, Bool.true_or, if_true]
    exact ⟨trivial, trivial⟩

theorem step_motor_node (n : Node) (a : ℚ) :
    (step n (Event.motor a)).node = { n with angle := a } := rfl

/-- C15 at angle 0: a device-1 scan with an empty batch opens the gate, the
angle is then updated to 0.5, and a device-2 scan of the point
(0.05, 0.02, 0.1) appends that point to `cloud2`. -/
theorem gate_shared_between_devices_witness :
    crop_cloud (exec (laser_1_cb (Node.init (1 / 4) double_0_127 0)
        ⟨true, [], some ⟨0, 0⟩⟩).node [Event.motor (1 / 2)])
        [scenario_point] 2 (some ⟨0, 0⟩) = some [scenario_point] ∧
      (exec (laser_1_cb (Node.init (1 / 4) double_0_127 0)
        ⟨true, [], some ⟨0, 0⟩⟩).node [Event.motor (1 / 2)]).angle = 1 / 2 ∧
      (laser_2_cb (exec (laser_1_cb (Node.init (1 / 4) double_0_127 0)
        ⟨true, [], some ⟨0, 0⟩⟩).node [Event.motor (1 / 2)])
        ⟨true, [scenario_point], some ⟨0, 0⟩⟩).node.cloud2 =
        (exec (laser_1_cb (Node.init (1 / 4) double_0_127 0)
          ⟨true, [], some ⟨0, 0⟩⟩).node [Event.motor (1 / 2)]).cloud2 ++
          [scenario_point] := by
  have hc2 : crop_cloud (exec (laser_1_cb (Node.init (1 / 4) double_0_127 0)
      ⟨true, [], some ⟨0, 0⟩⟩).node [Event.motor (1 / 2)])
      [scenario_point] 2 (some ⟨0, 0⟩) = some [scenario_point] := by
    exact crop_cloud_singleton_kept _ _ _ _ (remove_point_scenario_point _ 2
      (by
        rw [exec_singleton, step_motor_node]
        show (laser_1_cb _ _).node.max_z = 1 / 4
        rw [laser_1_cb_frame]
        rfl)
      (by
        rw [exec_singleton, step_motor_node]
        show (laser_1_cb _ _).node.max_radius = double_0_127
        rw [laser_1_cb_frame]
        rfl))
  have hangle : (exec (laser_1_cb (Node.init (1 / 4) double_0_127 0)
      ⟨true, [], some ⟨0, 0⟩⟩).node [Event.motor (1 / 2)]).angle = 1 / 2 := by
    rw [exec_singleton, step_motor_node]
  have h := (gate_shared_between_devices (Node.init (1 / 4) double_0_127 0)
    ⟨true, [], some ⟨0, 0⟩⟩ ⟨true, [scenario_point], some ⟨0, 0⟩⟩ []
    [scenario_point] [Event.motor (1 / 2)] rfl abs_zero_lt_tenth rfl
    rfl).1 (crop_cloud_nil _ _ _)
  exact ⟨hc2, hangle, (h.2.2 hc2).1⟩

/-- C16: a scan of either device whose wait succeeds and whose projected batch
is empty is a normal cycle with no accepted point. `crop_cloud` returns the
empty batch, whatever the lookup would answer; the cloud of the device is
unchanged; the gate check is made, so a closed gate opens (and "Ready to Scan."
is logged) exactly when `|angle| < 0.1`; and the unchanged cloud is published. -/
theorem empty_scan_is_normal_cycle (n : Node) (s : Scan) (hw : s.wait_ok = true)
    (he : s.projected = []) :
    (crop_cloud n s.projected 1 s.lookup = some [] ∧
      crop_cloud n s.projected 2 s.lookup = some []) ∧
    (laser_1_cb n s =
        { node :=
            { n with starting_config := n.starting_config || decide (|n.angle| < 1 / 10) }
          published := some n.cloud1
          ready_logged := !n.starting_config && decide (|n.angle| < 1 / 10)
          thrown := false } ∧
      laser_2_cb n s =
        { node :=
            { n with starting_config := n.starting_config || decide (|n.angle| < 1 / 10) }
          published := some n.cloud2
          ready_logged := !n.starting_config && decide (|n.angle| < 1 / 10)
          thrown := false }) ∧
    ((laser_1_cb n s).node.cloud1 = n.cloud1 ∧ (laser_2_cb n s).node.cloud2 = n.cloud2) ∧
    (n.starting_config = false → |n.angle| < 1 / 10 →
      (laser_1_cb n s).node.starting_config = true ∧
      (laser_2_cb n s).node.starting_config = true) := by
  have h1 : crop_cloud n s.projected 1 s.lookup = some [] := by
    rw [he]; exact crop_cloud_nil _ _ _
  have h2 : crop_cloud n s.projected 2 s.lookup = some [] := by
    rw [he]; exact crop_cloud_nil _ _ _
  have e1 := laser_1_cb_processed n s [] hw h1
  have e2 := laser_2_cb_processed n s [] hw h2
  simp only [List.append_nil, ite_self] at e1 e2
  refine ⟨⟨h1, h2⟩, ⟨e1, e2⟩, ?_, ?_⟩
  · rw [e1, e2]
    exact ⟨rfl, rfl⟩
  · intro hg ha
    have hgate := gate_check_open n (Or.inr ha)
    rw [e1, e2]
    exact ⟨hgate, hgate⟩

/-- C16 at an open gate holding one point in `cloud1`, angle 0.5, and a
device-1 scan with an empty batch and no resolvable transform: the callback
publishes the one-point cloud and does not throw. -/
theorem empty_scan_is_normal_cycle_witness :
    (laser_1_cb
        { Node.init (1 / 4) double_0_127 (1 / 2) with
          cloud1 := [scenario_point], starting_config := true }
        ⟨true, [], none⟩).published = some [scenario_point] ∧
      (laser_1_cb
        { Node.init (1 / 4) double_0_127 (1 / 2) with
          cloud1 := [scenario_point], starting_config := true }
        ⟨true, [], none⟩).thrown = false := by
  have h := (empty_scan_is_normal_cycle
    { Node.init (1 / 4) double_0_127 (1 / 2) with
      cloud1 := [scenario_point], starting_config := true }
    ⟨true, [], none⟩ rfl rfl).2.1.1
  rw [h]
  exact ⟨rfl, rfl⟩

end project
